import Mathlib

/-!
Verification development for the flowchart-agent repository.

The Python sources are shallowly embedded: pure string helpers become Lean
functions over `String` (represented through its `List Char` data), the
refinement loop of `FlowchartAgent.run` becomes a fuel-indexed recursion over
an oracle describing the completion service's responses, exceptions become an
`Except`-style sum, and observable side effects (completion-service calls and
the HTML presenter call) are recorded as an explicit event trace.
-/

/-! ## Python string primitives used by the agent -/

/-- The whitespace characters removed by Python's `str.strip()` (ASCII part:
space, tab, newline, carriage return, vertical tab, form feed). -/
def isPySpace (c : Char) : Bool :=
  c == ' ' || c == '\t' || c == '\n' || c == '\r' || c == '\x0b' || c == '\x0c'

/-- Python `str.strip()` at the `List Char` level: drop whitespace from both
ends. -/
def pyStripL (l : List Char) : List Char :=
  ((l.dropWhile isPySpace).reverse.dropWhile isPySpace).reverse

/-- Python `str.strip()`. -/
def pyStrip (s : String) : String :=
  ⟨pyStripL s.data⟩

/-- The flowchart-declaration keyword checked by `_ensure_mermaid_header`. -/
def flowchartKeyword : List Char :=
  ("flowchart").data

/-- `l.lower().startswith("flowchart")` at the `List Char` level: Python
lowercases the string and checks the (already lowercase) keyword. -/
def lowerStartsWithFlowchartL (l : List Char) : Bool :=
  flowchartKeyword.isPrefixOf (l.map Char.toLower)

/-- `s.lower().startswith("flowchart")` from `agent.py`. -/
def lowerStartsWithFlowchart (s : String) : Bool :=
  lowerStartsWithFlowchartL s.data

/-- `_ensure_mermaid_header` from `agent.py`: strip the input; if the stripped
text already starts (case-insensitively) with "flowchart" return it, else
prepend the default `flowchart TD` declaration line. -/
def _ensure_mermaid_header (mermaid_code : String) : String :=
  let stripped := pyStrip mermaid_code
  if lowerStartsWithFlowchart stripped then stripped
  else ("flowchart TD\n") ++ stripped

/-! ## List lemmas about stripping -/

theorem dropWhile_head_cases (q : Char → Bool) (l : List Char) :
    l.dropWhile q = [] ∨ ∃ c t, l.dropWhile q = c :: t ∧ q c = false := by
  induction l with
  | nil => exact Or.inl rfl
  | cons a l ih =>
    by_cases h : q a
    · simpa [List.dropWhile_cons, h] using ih
    · exact Or.inr ⟨a, l, by simp [List.dropWhile_cons, h], by simp [h]⟩

theorem dropWhile_idem (q : Char → Bool) (l : List Char) :
    (l.dropWhile q).dropWhile q = l.dropWhile q := by
  rcases dropWhile_head_cases q l with h | ⟨c, t, h, hc⟩
  · rw [h]; rfl
  · rw [h, List.dropWhile_cons, hc]
    simp

/-- Any list decomposes as its right-strip followed by its trailing run of
`q`-characters. -/
theorem rstrip_decomp (q : Char → Bool) (m : List Char) :
    m = (m.reverse.dropWhile q).reverse ++ (m.reverse.takeWhile q).reverse := by
  calc m = m.reverse.reverse := (List.reverse_reverse m).symm
    _ = (m.reverse.takeWhile q ++ m.reverse.dropWhile q).reverse := by
        rw [List.takeWhile_append_dropWhile]
    _ = (m.reverse.dropWhile q).reverse ++ (m.reverse.takeWhile q).reverse := by
        rw [List.reverse_append]

/-- If `m` has no leading `q`-character, neither does its right-strip. -/
theorem dropWhile_rstrip (q : Char → Bool) (m : List Char)
    (hm : m.dropWhile q = m) :
    ((m.reverse.dropWhile q).reverse).dropWhile q
      = (m.reverse.dropWhile q).reverse := by
  rcases hr' : (m.reverse.dropWhile q).reverse with _ | ⟨c', t'⟩
  · rfl
  · have hdec := rstrip_decomp q m
    rw [hr'] at hdec
    rcases dropWhile_head_cases q m with h0 | ⟨c, t, h0, hc⟩
    · rw [hm] at h0
      rw [h0] at hdec
      exact absurd hdec.symm (by simp)
    · rw [hm] at h0
      rw [h0, List.cons_append] at hdec
      injection hdec with h1 h2
      have hq' : q c' = false := by rw [← h1]; exact hc
      rw [List.dropWhile_cons, hq']
      simp

/-- `pyStripL` is idempotent. -/
theorem pyStripL_idem (l : List Char) : pyStripL (pyStripL l) = pyStripL l := by
  unfold pyStripL
  rw [dropWhile_rstrip isPySpace (l.dropWhile isPySpace) (dropWhile_idem isPySpace l)]
  rw [List.reverse_reverse, dropWhile_idem]

/-- A prefix of `core ++ sp` with no space characters, where `sp` is all
spaces, is a prefix of `core`. -/
theorem prefix_of_append_spaces {p core sp : List Char}
    (hp : ∀ c ∈ p, isPySpace c = false)
    (hsp : ∀ c ∈ sp, isPySpace c = true)
    (h : p <+: core ++ sp) : p <+: core := by
  rcases List.prefix_or_prefix_of_prefix h (List.prefix_append core sp) with
    hgood | hback
  · exact hgood
  · obtain ⟨r, hrdef⟩ := hback
    rcases r with _ | ⟨d, r'⟩
    · have hcp : core = p := by simpa using hrdef
      rw [← hcp]
    · exfalso
      obtain ⟨rest, hrest⟩ := h
      have h1 : core ++ ((d :: r') ++ rest) = core ++ sp := by
        rw [← List.append_assoc, hrdef, hrest]
      have h2 : (d :: r') ++ rest = sp := List.append_cancel_left h1
      have hd1 : isPySpace d = true := hsp d (by rw [← h2]; simp)
      have hd2 : isPySpace d = false := hp d (by rw [← hrdef]; simp)
      rw [hd1] at hd2
      exact Bool.noConfusion hd2

/-- A nonempty space-free prefix survives `pyStripL`. -/
theorem prefix_pyStripL {p l : List Char} (hp : ∀ c ∈ p, isPySpace c = false)
    (hne : p ≠ []) (h : p <+: l) : p <+: pyStripL l := by
  rcases p with _ | ⟨c, p'⟩
  · exact absurd rfl hne
  obtain ⟨rest, hrest⟩ := h
  have hc : isPySpace c = false := hp c (by simp)
  have hldrop : l.dropWhile isPySpace = l := by
    rw [← hrest, List.cons_append, List.dropWhile_cons, hc]
    simp
  have hcore : pyStripL l = (l.reverse.dropWhile isPySpace).reverse := by
    unfold pyStripL
    rw [hldrop]
  have hsp : ∀ x ∈ (l.reverse.takeWhile isPySpace).reverse,
      isPySpace x = true := by
    intro x hx
    rw [List.mem_reverse] at hx
    exact List.mem_takeWhile_imp hx
  have hpre : (c :: p') <+: (l.reverse.dropWhile isPySpace).reverse ++
      (l.reverse.takeWhile isPySpace).reverse := by
    rw [← rstrip_decomp isPySpace l]
    exact ⟨rest, hrest⟩
  rw [hcore]
  exact prefix_of_append_spaces hp hsp hpre

/-! ## Claim C3: the normalizer -/

/-- Claim C3: `_ensure_mermaid_header` is a total pure function: if the
trimmed input begins (case-insensitively) with "flowchart" it returns the
trimmed input unchanged, otherwise it returns "flowchart TD", a newline, and
the trimmed body; on the empty string it yields the declaration plus empty
body, and on "A-->B" it yields "flowchart TD\nA-->B". -/
theorem C3_normalizer (s : String) :
    (lowerStartsWithFlowchart (pyStrip s) = true →
      _ensure_mermaid_header s = pyStrip s) ∧
    (lowerStartsWithFlowchart (pyStrip s) = false →
      _ensure_mermaid_header s = ("flowchart TD\n") ++ pyStrip s) ∧
    _ensure_mermaid_header ("") = "flowchart TD\n" ∧
    _ensure_mermaid_header ("A-->B") = "flowchart TD\nA-->B" := by
  refine ⟨?_, ?_, by decide, by decide⟩
  · intro h
    unfold _ensure_mermaid_header
    simp [h]
  · intro h
    unfold _ensure_mermaid_header
    simp [h]

/-- Witness for C3 at the concrete input "A-->B". -/
theorem C3_normalizer_witness :
    lowerStartsWithFlowchart (pyStrip ("A-->B")) = false ∧
    _ensure_mermaid_header ("A-->B") = ("flowchart TD\n") ++ pyStrip ("A-->B") :=
  ⟨by decide, (C3_normalizer ("A-->B")).2.1 (by decide)⟩

/-! ## Data model (`models.py`) -/

/-- `FlowchartDraft` from `models.py`: a Mermaid definition plus rationale. -/
structure FlowchartDraft where
  mermaid_code : String
  rationale : String
deriving DecidableEq

/-- `FlowchartCritique` from `models.py`: verdict plus revision guidance. -/
structure FlowchartCritique where
  is_satisfactory : Bool
  revision_guidance : String
deriving DecidableEq

/-- `FlowchartResult` from `models.py`: the final artefact. -/
structure FlowchartResult where
  prompt : String
  mermaid_code : String
  html_path : Option String
deriving DecidableEq

/-! ## Completion service model

Each chain invocation in `agent.py` either returns a schema-conforming value,
raises `pydantic.ValidationError`, or raises some other exception. -/

/-- Outcome of one completion-chain invocation. -/
inductive ChainResponse (α : Type) where
  | ok (value : α)
  | validationError (msg : String)
  | otherError (msg : String)
deriving DecidableEq

/-- Oracle fixing the completion service's response to the draft call and to
the i-th critique and i-th revision calls of a run. -/
structure CompletionOracle where
  draftResponse : ChainResponse FlowchartDraft
  critiqueResponses : Nat → ChainResponse FlowchartCritique
  reviseResponses : Nat → ChainResponse FlowchartDraft

/-- The failures `run` can surface: the three phase-labelled `ValueError`s
raised on `ValidationError`, or any other exception propagating unchanged. -/
inductive AgentError where
  | draftGenerationFailure (cause : String)
  | critiqueParsingFailure (cause : String)
  | revisionParsingFailure (cause : String)
  | uncaught (cause : String)
deriving DecidableEq

/-- Observable calls made during a run: one event per completion-service
invocation plus one per presenter (HTML writer) invocation. -/
inductive CallEvent where
  | draftCall
  | critiqueCall
  | reviseCall
  | presenterCall (document : String) (destination : String)
deriving DecidableEq

def CallEvent.isDraft : CallEvent → Bool
  | .draftCall => true
  | _ => false

def CallEvent.isCritique : CallEvent → Bool
  | .critiqueCall => true
  | _ => false

def CallEvent.isRevise : CallEvent → Bool
  | .reviseCall => true
  | _ => false

def CallEvent.isPresenter : CallEvent → Bool
  | .presenterCall _ _ => true
  | _ => false

def countDraftCalls (evs : List CallEvent) : Nat := evs.countP CallEvent.isDraft

def countCritiqueCalls (evs : List CallEvent) : Nat :=
  evs.countP CallEvent.isCritique

def countReviseCalls (evs : List CallEvent) : Nat :=
  evs.countP CallEvent.isRevise

def countPresenterCalls (evs : List CallEvent) : Nat :=
  evs.countP CallEvent.isPresenter

/-! ## Presenter (`renderer.py`)

`write_mermaid_html` renders the fixed inline template with
`{{ mermaid_code }}` interpolated twice.  The environment is built with
`select_autoescape(["html"])`, whose `default_for_string` default is `True`,
so string templates are HTML-autoescaped: each interpolation inserts the
escaped content. -/

/-- markupsafe's HTML escape of a single character. -/
def jinjaEscapeChar (c : Char) : List Char :=
  if c = '&' then ("&amp;").data
  else if c = '<' then ("&lt;").data
  else if c = '>' then ("&gt;").data
  else if c = Char.ofNat 34 then ("&#34;").data
  else if c = Char.ofNat 39 then ("&#39;").data
  else [c]

/-- markupsafe's HTML escape, applied by jinja2 autoescaping. -/
def jinjaEscape (s : String) : String :=
  ⟨(s.data.map jinjaEscapeChar).flatten⟩

/-- Template text of `write_mermaid_html` before the first interpolation. -/
def htmlPart1 : String :=
  "<!DOCTYPE html>\n<html lang=\"en\">\n  <head>\n    <meta charset=\"utf-8\" />\n    <title>Flowchart</title>\n    <script type=\"module\">\n      import mermaid from \"https://cdn.jsdelivr.net/npm/mermaid@10/dist/mermaid.esm.min.mjs\";\n      mermaid.initialize(\x7b startOnLoad: true, securityLevel: \"loose\" \x7d);\n    </script>\n    <style>\n      body \x7b font-family: system-ui, sans-serif; background: #f8f9fb; margin: 0; padding: 2rem; \x7d\n      .container \x7b background: #fff; padding: 1.5rem; border-radius: 12px; box-shadow: 0 8px 24px rgba(0, 0, 0, 0.08); \x7d\n      pre \x7b background: #1e1f22; color: #f5f5f5; padding: 1rem; border-radius: 8px; overflow-x: auto; \x7d\n    </style>\n  </head>\n  <body>\n    <div class=\"container\">\n      <h1>Flowchart Diagram</h1>\n      <div class=\"mermaid\">\n"

/-- Template text between the two interpolations. -/
def htmlPart2 : String :=
  "\n      </div>\n      <h2>Source</h2>\n      <pre><code>"

/-- Template text after the second interpolation. -/
def htmlPart3 : String :=
  "</code></pre>\n    </div>\n  </body>\n</html>\n"

/-- `write_mermaid_html` from `renderer.py`, as the document it writes to the
output path (the path itself is returned to the caller unchanged). -/
def write_mermaid_html (mermaid_code : String) : String :=
  htmlPart1 ++ jinjaEscape mermaid_code ++ htmlPart2 ++
    jinjaEscape mermaid_code ++ htmlPart3

/-! ## The refinement loop (`FlowchartAgent.run`) -/

/-- `FlowchartAgent._finalize`: optionally invoke the presenter, then build
the result with the stripped Mermaid code.  Returns the result together with
the presenter events it caused. -/
def FlowchartAgent.finalize (user_prompt : String) (mermaid_code : String)
    (save_html : Bool) (output_path : String) :
    FlowchartResult × List CallEvent :=
  if save_html then
    (⟨user_prompt, pyStrip mermaid_code, some output_path⟩,
      [CallEvent.presenterCall (write_mermaid_html mermaid_code) output_path])
  else
    (⟨user_prompt, pyStrip mermaid_code, none⟩, [])

/-- Normalization applied by `_draft` and `_revise` to the parsed draft. -/
def normalizeDraft (d : FlowchartDraft) : FlowchartDraft :=
  { d with mermaid_code := _ensure_mermaid_header d.mermaid_code }

/-- The `for iteration in range(max_iterations)` loop body of
`FlowchartAgent.run`: critique the current draft, finalize if satisfactory,
otherwise revise and continue.  `idx` is the iteration counter, `fuel` the
remaining iterations. -/
def runLoop (o : CompletionOracle) (user_prompt : String) (save_html : Bool)
    (output_path : String) (d : FlowchartDraft) (idx : Nat) :
    Nat → Except AgentError FlowchartResult × List CallEvent
  | 0 =>
    let fr := FlowchartAgent.finalize user_prompt d.mermaid_code save_html
      output_path
    (Except.ok fr.1, fr.2)
  | fuel + 1 =>
    match o.critiqueResponses idx with
    | .validationError e =>
      (Except.error (AgentError.critiqueParsingFailure e), [.critiqueCall])
    | .otherError e =>
      (Except.error (AgentError.uncaught e), [.critiqueCall])
    | .ok c =>
      if c.is_satisfactory then
        let fr := FlowchartAgent.finalize user_prompt d.mermaid_code save_html
          output_path
        (Except.ok fr.1, .critiqueCall :: fr.2)
      else
        match o.reviseResponses idx with
        | .validationError e =>
          (Except.error (AgentError.revisionParsingFailure e),
            [.critiqueCall, .reviseCall])
        | .otherError e =>
          (Except.error (AgentError.uncaught e), [.critiqueCall, .reviseCall])
        | .ok d2 =>
          let rec2 := runLoop o user_prompt save_html output_path
            (normalizeDraft d2) (idx + 1) fuel
          (rec2.1, .critiqueCall :: .reviseCall :: rec2.2)

/-- `FlowchartAgent.run`: draft once (normalizing the parsed draft), then run
the critique/revise loop for at most `max_iterations` iterations. -/
def FlowchartAgent.run (max_iterations : Nat) (o : CompletionOracle)
    (user_prompt : String) (save_html : Bool) (output_path : String) :
    Except AgentError FlowchartResult × List CallEvent :=
  match o.draftResponse with
  | .validationError e =>
    (Except.error (AgentError.draftGenerationFailure e), [.draftCall])
  | .otherError e =>
    (Except.error (AgentError.uncaught e), [.draftCall])
  | .ok d0 =>
    let body := runLoop o user_prompt save_html output_path
      (normalizeDraft d0) 0 max_iterations
    (body.1, .draftCall :: body.2)

/-- The sequence of drafts held by the loop when every critique is
unsatisfactory: `loopDraft o d idx fuel` is the draft current after `fuel`
further revisions starting from draft `d` at iteration `idx`. -/
def loopDraft (o : CompletionOracle) : FlowchartDraft → Nat → Nat → FlowchartDraft
  | d, _, 0 => d
  | d, idx, fuel + 1 =>
    match o.reviseResponses idx with
    | .ok d2 => loopDraft o (normalizeDraft d2) (idx + 1) fuel
    | _ => d

/-! ## The graph-based variant (`agent_langgraph.py`) -/

/-- Python `str.find`: smallest start index of `pat` in `l`, if any. -/
def pyFind (l pat : List Char) : Option Nat :=
  (List.range (l.length + 1)).find? (fun i => pat.isPrefixOf (l.drop i))

/-- Python `str.rfind`: largest start index of `pat` in `l`, if any. -/
def pyRFind (l pat : List Char) : Option Nat :=
  (List.range (l.length + 1)).reverse.find?
    (fun i => pat.isPrefixOf (l.drop i))

/-- The code-block extraction in `generate_mermaid`: slice between the first
"```mermaid" marker and the last "```" marker when both exist in the right
order, else fall back to the whole response; strip either way. -/
def extractMermaidBlock (content : String) : String :=
  let l := content.data
  match pyFind l ("```mermaid").data, pyRFind l ("```").data with
  | some s, some e =>
    if e > s then ⟨pyStripL ((l.drop (s + 10)).take (e - (s + 10)))⟩
    else ⟨pyStripL l⟩
  | _, _ => ⟨pyStripL l⟩

/-- `Reflection` from `agent_langgraph.py`. -/
structure Reflection where
  is_satisfactory : Bool
  critique_or_suggestion : String
deriving DecidableEq

/-- `AgentState` from `agent_langgraph.py`.  `critique_history` is annotated
with the `add` reducer, so node returns are appended to it. -/
structure AgentState where
  user_input : String
  mermaid_code : String
  critique_history : List String
  revision_number : Nat
  reflection_output : Option Reflection
deriving DecidableEq

/-- Oracle for the graph variant: the raw response text of the i-th generate
call and the structured outcome (or exception) of the i-th reflect call. -/
structure LangGraphOracle where
  generateResponses : Nat → String
  reflectResponses : Nat → Except String Reflection

/-- The `generate` node (`generate_mermaid`) combined with the state reducer:
store the extracted code, bump the revision counter, append a history
entry. -/
def generate_mermaid (o : LangGraphOracle) (call : Nat) (s : AgentState) :
    AgentState :=
  let generated_code := extractMermaidBlock (o.generateResponses call)
  { s with
    mermaid_code := generated_code,
    revision_number := s.revision_number + 1,
    critique_history := s.critique_history ++
      [("Revision ") ++ toString (s.revision_number + 1) ++ (" generated.")] }

/-- Critique text used by `reflect_on_mermaid` when reflection raises. -/
def reflectErrorMessage (e : String) : String :=
  ("ERROR: Reflection failed with exception: ") ++ e ++
    (". Forcing refinement.")

/-- The `reflect` node (`reflect_on_mermaid`) combined with the state
reducer: append the critique text and store the reflection; on an exception,
append an error critique and force an unsatisfactory reflection. -/
def reflect_on_mermaid (o : LangGraphOracle) (call : Nat) (s : AgentState) :
    AgentState :=
  match o.reflectResponses call with
  | .ok r =>
    { s with
      critique_history := s.critique_history ++ [r.critique_or_suggestion],
      reflection_output := some r }
  | .error e =>
    { s with
      critique_history := s.critique_history ++ [reflectErrorMessage e],
      reflection_output := some ⟨false, reflectErrorMessage e⟩ }

/-- `MAX_REVISIONS` from `agent_langgraph.py`. -/
def MAX_REVISIONS : Nat := 3

/-- `should_continue`: end when the reflection is satisfactory or the
revision counter has reached `MAX_REVISIONS`, otherwise loop to generate. -/
def should_continue (s : AgentState) : String :=
  match s.reflection_output with
  | some r =>
    if r.is_satisfactory then ("end")
    else if s.revision_number ≥ MAX_REVISIONS then ("end")
    else ("generate")
  | none =>
    if s.revision_number ≥ MAX_REVISIONS then ("end")
    else ("generate")

/-- The compiled workflow of `create_agent_workflow`: generate, reflect, and
either loop back to generate or end, per `should_continue`.  `call` indexes
the generate/reflect round; `fuel` bounds the recursion (the conditional edge
itself guarantees termination within `MAX_REVISIONS` rounds). -/
def langGraphLoop (o : LangGraphOracle) : AgentState → Nat → Nat → AgentState
  | s, _, 0 => s
  | s, call, fuel + 1 =>
    let s2 := reflect_on_mermaid o call (generate_mermaid o call s)
    if should_continue s2 = ("generate" : String) then
      langGraphLoop o s2 (call + 1) fuel
    else s2

/-- Invoking the compiled graph on the initial state used in
`agent_langgraph.py`'s main block. -/
def langGraphRun (o : LangGraphOracle) (user_input : String) : AgentState :=
  langGraphLoop o ⟨user_input, "", [], 0, none⟩ 0 (MAX_REVISIONS + 1)

/-! ## Event-count helpers -/

theorem finalize_fst (prompt code : String) (sh : Bool) (path : String) :
    (FlowchartAgent.finalize prompt code sh path).1 =
      ⟨prompt, pyStrip code, if sh then some path else none⟩ := by
  cases sh <;> rfl

theorem finalize_snd (prompt code : String) (sh : Bool) (path : String) :
    (FlowchartAgent.finalize prompt code sh path).2 =
      if sh then [CallEvent.presenterCall (write_mermaid_html code) path]
      else [] := by
  cases sh <;> rfl

theorem finalize_countDraft (prompt code : String) (sh : Bool) (path : String) :
    countDraftCalls (FlowchartAgent.finalize prompt code sh path).2 = 0 := by
  cases sh <;> rfl

theorem finalize_countCritique (prompt code : String) (sh : Bool)
    (path : String) :
    countCritiqueCalls (FlowchartAgent.finalize prompt code sh path).2 = 0 := by
  cases sh <;> rfl

theorem finalize_countRevise (prompt code : String) (sh : Bool)
    (path : String) :
    countReviseCalls (FlowchartAgent.finalize prompt code sh path).2 = 0 := by
  cases sh <;> rfl

theorem finalize_countPresenter (prompt code : String) (sh : Bool)
    (path : String) :
    countPresenterCalls (FlowchartAgent.finalize prompt code sh path).2 =
      (if sh then 1 else 0) := by
  cases sh <;> rfl

theorem countCritiqueCalls_cons (e : CallEvent) (evs : List CallEvent) :
    countCritiqueCalls (e :: evs) =
      countCritiqueCalls evs + (if e.isCritique then 1 else 0) := by
  simp [countCritiqueCalls, List.countP_cons]

theorem countReviseCalls_cons (e : CallEvent) (evs : List CallEvent) :
    countReviseCalls (e :: evs) =
      countReviseCalls evs + (if e.isRevise then 1 else 0) := by
  simp [countReviseCalls, List.countP_cons]

theorem countDraftCalls_cons (e : CallEvent) (evs : List CallEvent) :
    countDraftCalls (e :: evs) =
      countDraftCalls evs + (if e.isDraft then 1 else 0) := by
  simp [countDraftCalls, List.countP_cons]

theorem countPresenterCalls_cons (e : CallEvent) (evs : List CallEvent) :
    countPresenterCalls (e :: evs) =
      countPresenterCalls evs + (if e.isPresenter then 1 else 0) := by
  simp [countPresenterCalls, List.countP_cons]

/-- Per-iteration bound: the loop makes at most `fuel` critique calls and at
most `fuel` revise calls. -/
theorem runLoop_counts (o : CompletionOracle) (prompt : String) (sh : Bool)
    (path : String) :
    ∀ fuel d idx,
      countCritiqueCalls (runLoop o prompt sh path d idx fuel).2 ≤ fuel ∧
      countReviseCalls (runLoop o prompt sh path d idx fuel).2 ≤ fuel := by
  intro fuel
  induction fuel with
  | zero =>
    intro d idx
    constructor
    · simp [runLoop, finalize_countCritique]
    · simp [runLoop, finalize_countRevise]
  | succ fuel ih =>
    intro d idx
    cases hc : o.critiqueResponses idx with
    | validationError e =>
      constructor
      · simp [runLoop, hc, countCritiqueCalls_cons, countCritiqueCalls,
          CallEvent.isCritique]
      · simp [runLoop, hc, countReviseCalls_cons, countReviseCalls,
          CallEvent.isRevise]
    | otherError e =>
      constructor
      · simp [runLoop, hc, countCritiqueCalls_cons, countCritiqueCalls,
          CallEvent.isCritique]
      · simp [runLoop, hc, countReviseCalls_cons, countReviseCalls,
          CallEvent.isRevise]
    | ok c =>
      by_cases hs : c.is_satisfactory
      · constructor
        · simp [runLoop, hc, hs, countCritiqueCalls_cons,
            finalize_countCritique, CallEvent.isCritique]
        · simp [runLoop, hc, hs, countReviseCalls_cons,
            finalize_countRevise, CallEvent.isRevise]
      · cases hr : o.reviseResponses idx with
        | validationError e =>
          constructor
          · simp [runLoop, hc, hs, hr, countCritiqueCalls_cons,
              countCritiqueCalls, CallEvent.isCritique]
          · simp [runLoop, hc, hs, hr, countReviseCalls_cons,
              countReviseCalls, CallEvent.isRevise]
        | otherError e =>
          constructor
          · simp [runLoop, hc, hs, hr, countCritiqueCalls_cons,
              countCritiqueCalls, CallEvent.isCritique]
          · simp [runLoop, hc, hs, hr, countReviseCalls_cons,
              countReviseCalls, CallEvent.isRevise]
        | ok d2 =>
          have h2 := ih (normalizeDraft d2) (idx + 1)
          constructor
          · have := h2.1
            simp only [runLoop, hc, hs, hr]
            simp [countCritiqueCalls_cons, CallEvent.isCritique]
            omega
          · have := h2.2
            simp only [runLoop, hc, hs, hr]
            simp [countReviseCalls_cons, CallEvent.isRevise]
            omega

/-! ## Claim C1: iteration budget -/

/-- Oracle refuting C1: first critique unsatisfactory, revision available. -/
def c1oracle : CompletionOracle :=
  ⟨ChainResponse.ok ⟨"A-->B", "r"⟩,
   fun _ => ChainResponse.ok ⟨false, "bad"⟩,
   fun _ => ChainResponse.ok ⟨"C-->D", "r2"⟩⟩

/-- Claim C1 is false on the code: with `max_iterations = 1` and an
unsatisfactory first critique, `run` performs one revise call (so revise is
not bounded by N-1 = 0) and returns the revised draft, not the first
draft. -/
theorem C1_counterexample :
    countReviseCalls
      (FlowchartAgent.run 1 c1oracle ("p") false ("out.html")).2 = 1 ∧
    ¬ countReviseCalls
      (FlowchartAgent.run 1 c1oracle ("p") false ("out.html")).2 ≤ 1 - 1 ∧
    (FlowchartAgent.run 1 c1oracle ("p") false ("out.html")).1 =
      Except.ok ⟨"p", "flowchart TD\nC-->D", none⟩ ∧
    pyStrip (_ensure_mermaid_header ("A-->B")) ≠ "flowchart TD\nC-->D" :=
  ⟨by decide, by decide, rfl, by decide⟩

/-- Claim C1 amended: for every run with `max_iterations = N` the critique
operation is invoked at most N times and revise at most N times (not N-1);
with `max_iterations = 1` and an unsatisfactory first critique, one revision
is attempted and `run` returns the revised draft as the Result. -/
theorem C1_amended (max_iterations : Nat) (o : CompletionOracle)
    (user_prompt : String) (save_html : Bool) (output_path : String) :
    countCritiqueCalls
      (FlowchartAgent.run max_iterations o user_prompt save_html
        output_path).2 ≤ max_iterations ∧
    countReviseCalls
      (FlowchartAgent.run max_iterations o user_prompt save_html
        output_path).2 ≤ max_iterations ∧
    (∀ d0 g d1,
      o.draftResponse = ChainResponse.ok d0 →
      o.critiqueResponses 0 = ChainResponse.ok ⟨false, g⟩ →
      o.reviseResponses 0 = ChainResponse.ok d1 →
      (FlowchartAgent.run 1 o user_prompt save_html output_path).1 =
        Except.ok ⟨user_prompt,
          pyStrip (_ensure_mermaid_header d1.mermaid_code),
          if save_html then some output_path else none⟩) := by
  refine ⟨?_, ?_, ?_⟩
  · cases hd : o.draftResponse with
    | validationError e =>
      simp [FlowchartAgent.run, hd, countCritiqueCalls_cons,
        countCritiqueCalls, CallEvent.isCritique]
    | otherError e =>
      simp [FlowchartAgent.run, hd, countCritiqueCalls_cons,
        countCritiqueCalls, CallEvent.isCritique]
    | ok d0 =>
      have h := (runLoop_counts o user_prompt save_html output_path
        max_iterations (normalizeDraft d0) 0).1
      simp only [FlowchartAgent.run, hd]
      simp [countCritiqueCalls_cons, CallEvent.isCritique]
      omega
  · cases hd : o.draftResponse with
    | validationError e =>
      simp [FlowchartAgent.run, hd, countReviseCalls_cons,
        countReviseCalls, CallEvent.isRevise]
    | otherError e =>
      simp [FlowchartAgent.run, hd, countReviseCalls_cons,
        countReviseCalls, CallEvent.isRevise]
    | ok d0 =>
      have h := (runLoop_counts o user_prompt save_html output_path
        max_iterations (normalizeDraft d0) 0).2
      simp only [FlowchartAgent.run, hd]
      simp [countReviseCalls_cons, CallEvent.isRevise]
      omega
  · intro d0 g d1 hd hc hr
    simp only [FlowchartAgent.run, hd, runLoop, hc, hr]
    simp [normalizeDraft, finalize_fst]

/-- Witness for C1_amended at a concrete oracle and `N = 1`. -/
theorem C1_amended_witness :
    countCritiqueCalls
      (FlowchartAgent.run 1 c1oracle ("p") false ("out.html")).2 ≤ 1 ∧
    (FlowchartAgent.run 1 c1oracle ("p") false ("out.html")).1 =
      Except.ok ⟨"p",
        pyStrip (_ensure_mermaid_header ("C-->D")),
        if false then some ("out.html") else none⟩ :=
  ⟨(C1_amended 1 c1oracle ("p") false ("out.html")).1,
   (C1_amended 1 c1oracle ("p") false ("out.html")).2.2
     ⟨"A-->B", "r"⟩ ("bad") ⟨"C-->D", "r2"⟩ rfl rfl rfl⟩

/-! ## Claim C2: termination under all-unsatisfactory critiques -/

/-- When every critique in the remaining budget is unsatisfactory and every
revision parses, the loop succeeds after exactly `fuel` critique calls,
finalizing the draft reached after `fuel` revisions. -/
theorem runLoop_all_unsat (o : CompletionOracle) (prompt : String) (sh : Bool)
    (path : String) :
    ∀ fuel d idx,
      (∀ j, j < fuel → ∃ g, o.critiqueResponses (idx + j) =
        ChainResponse.ok ⟨false, g⟩) →
      (∀ j, j < fuel → ∃ d2, o.reviseResponses (idx + j) =
        ChainResponse.ok d2) →
      (runLoop o prompt sh path d idx fuel).1 =
        Except.ok ⟨prompt, pyStrip (loopDraft o d idx fuel).mermaid_code,
          if sh then some path else none⟩ ∧
      countCritiqueCalls (runLoop o prompt sh path d idx fuel).2 = fuel := by
  intro fuel
  induction fuel with
  | zero =>
    intro d idx _ _
    constructor
    · simp [runLoop, loopDraft, finalize_fst]
    · simp [runLoop, finalize_countCritique]
  | succ fuel ih =>
    intro d idx hcrit hrev
    obtain ⟨g, hc⟩ := hcrit 0 (Nat.succ_pos fuel)
    obtain ⟨d2, hr⟩ := hrev 0 (Nat.succ_pos fuel)
    rw [Nat.add_zero] at hc hr
    have hcrit' : ∀ j, j < fuel → ∃ g', o.critiqueResponses ((idx + 1) + j) =
        ChainResponse.ok ⟨false, g'⟩ := by
      intro j hj
      have := hcrit (j + 1) (by omega)
      rwa [show idx + (j + 1) = (idx + 1) + j by omega] at this
    have hrev' : ∀ j, j < fuel → ∃ d', o.reviseResponses ((idx + 1) + j) =
        ChainResponse.ok d' := by
      intro j hj
      have := hrev (j + 1) (by omega)
      rwa [show idx + (j + 1) = (idx + 1) + j by omega] at this
    have hih := ih (normalizeDraft d2) (idx + 1) hcrit' hrev'
    constructor
    · simp only [runLoop, hc, hr]
      simp only [loopDraft, hr]
      exact hih.1
    · simp only [runLoop, hc, hr]
      simp [countCritiqueCalls_cons, CallEvent.isCritique, CallEvent.isRevise,
        hih.2]

/-- Claim C2: if every critique returned is unsatisfactory (and every
revision parses), a run with `max_iterations = N` terminates with a Result
after exactly N critique calls, and the Result is built from the last draft
produced (the draft reached after N revisions, stripped). -/
theorem C2_all_unsat_terminates (N : Nat) (o : CompletionOracle)
    (user_prompt : String) (save_html : Bool) (output_path : String)
    (d0 : FlowchartDraft)
    (hd : o.draftResponse = ChainResponse.ok d0)
    (hc : ∀ j, j < N → ∃ g, o.critiqueResponses j =
      ChainResponse.ok ⟨false, g⟩)
    (hr : ∀ j, j < N → ∃ d2, o.reviseResponses j = ChainResponse.ok d2) :
    (FlowchartAgent.run N o user_prompt save_html output_path).1 =
      Except.ok ⟨user_prompt,
        pyStrip (loopDraft o (normalizeDraft d0) 0 N).mermaid_code,
        if save_html then some output_path else none⟩ ∧
    countCritiqueCalls
      (FlowchartAgent.run N o user_prompt save_html output_path).2 = N := by
  have hc0 : ∀ j, j < N → ∃ g, o.critiqueResponses (0 + j) =
      ChainResponse.ok ⟨false, g⟩ := by
    intro j hj
    rw [Nat.zero_add]
    exact hc j hj
  have hr0 : ∀ j, j < N → ∃ d2, o.reviseResponses (0 + j) =
      ChainResponse.ok d2 := by
    intro j hj
    rw [Nat.zero_add]
    exact hr j hj
  have h := runLoop_all_unsat o user_prompt save_html output_path N
    (normalizeDraft d0) 0 hc0 hr0
  constructor
  · simp only [FlowchartAgent.run, hd]
    exact h.1
  · simp only [FlowchartAgent.run, hd]
    simp [countCritiqueCalls_cons, CallEvent.isDraft, CallEvent.isCritique,
      h.2]

/-- Oracle for the C2 witness: every critique unsatisfactory. -/
def c2oracle : CompletionOracle :=
  ⟨ChainResponse.ok ⟨"A-->B", "r"⟩,
   fun _ => ChainResponse.ok ⟨false, "bad"⟩,
   fun i => ChainResponse.ok ⟨("R" ++ toString i), "r2"⟩⟩

/-- Witness for C2 at `N = 2` and a concrete all-unsatisfactory oracle. -/
theorem C2_all_unsat_terminates_witness :
    (FlowchartAgent.run 2 c2oracle ("p") false ("out.html")).1 =
      Except.ok ⟨"p",
        pyStrip (loopDraft c2oracle
          (normalizeDraft ⟨"A-->B", "r"⟩) 0 2).mermaid_code,
        if false then some ("out.html") else none⟩ ∧
    countCritiqueCalls
      (FlowchartAgent.run 2 c2oracle ("p") false ("out.html")).2 = 2 :=
  C2_all_unsat_terminates 2 c2oracle ("p") false ("out.html") ⟨"A-->B", "r"⟩
    rfl (fun _ _ => ⟨"bad", rfl⟩) (fun j _ => ⟨⟨("R" ++ toString j), "r2"⟩, rfl⟩)

/-! ## Claim C4: first critique satisfactory -/

/-- Claim C4: if the first critique is satisfactory, the run makes exactly
one draft call, one critique call, and zero revise calls, and the Result's
content is the stripped, normalized first draft. -/
theorem C4_first_satisfactory (N : Nat) (o : CompletionOracle)
    (user_prompt : String) (save_html : Bool) (output_path : String)
    (d0 : FlowchartDraft) (c0 : FlowchartCritique)
    (hd : o.draftResponse = ChainResponse.ok d0)
    (hc : o.critiqueResponses 0 = ChainResponse.ok c0)
    (hs : c0.is_satisfactory = true)
    (hN : 1 ≤ N) :
    (FlowchartAgent.run N o user_prompt save_html output_path).1 =
      Except.ok ⟨user_prompt,
        pyStrip (_ensure_mermaid_header d0.mermaid_code),
        if save_html then some output_path else none⟩ ∧
    countDraftCalls
      (FlowchartAgent.run N o user_prompt save_html output_path).2 = 1 ∧
    countCritiqueCalls
      (FlowchartAgent.run N o user_prompt save_html output_path).2 = 1 ∧
    countReviseCalls
      (FlowchartAgent.run N o user_prompt save_html output_path).2 = 0 := by
  cases N with
  | zero => omega
  | succ m =>
    refine ⟨?_, ?_, ?_, ?_⟩
    · simp only [FlowchartAgent.run, hd, runLoop, hc, hs]
      simp [normalizeDraft, finalize_fst]
    · simp only [FlowchartAgent.run, hd, runLoop, hc, hs]
      simp [countDraftCalls_cons, CallEvent.isDraft, finalize_countDraft]
    · simp only [FlowchartAgent.run, hd, runLoop, hc, hs]
      simp [countCritiqueCalls_cons, CallEvent.isCritique,
        finalize_countCritique]
    · simp only [FlowchartAgent.run, hd, runLoop, hc, hs]
      simp [countReviseCalls_cons, CallEvent.isRevise, finalize_countRevise]

/-- Oracle for the C4 witness: first critique satisfactory. -/
def c4oracle : CompletionOracle :=
  ⟨ChainResponse.ok ⟨"A-->B", "r"⟩,
   fun _ => ChainResponse.ok ⟨true, "fine"⟩,
   fun _ => ChainResponse.validationError ("never called")⟩

/-- Witness for C4 at a concrete oracle with `N = 3`. -/
theorem C4_first_satisfactory_witness :
    (FlowchartAgent.run 3 c4oracle ("p") false ("out.html")).1 =
      Except.ok ⟨"p",
        pyStrip (_ensure_mermaid_header ("A-->B")),
        if false then some ("out.html") else none⟩ ∧
    countDraftCalls
      (FlowchartAgent.run 3 c4oracle ("p") false ("out.html")).2 = 1 ∧
    countCritiqueCalls
      (FlowchartAgent.run 3 c4oracle ("p") false ("out.html")).2 = 1 ∧
    countReviseCalls
      (FlowchartAgent.run 3 c4oracle ("p") false ("out.html")).2 = 0 :=
  C4_first_satisfactory 3 c4oracle ("p") false ("out.html")
    ⟨"A-->B", "r"⟩ ⟨true, "fine"⟩ rfl rfl rfl (by omega)

/-! ## Claim C5: the result is a stripped, normalized draft -/

/-- `pyStrip` is idempotent. -/
theorem pyStrip_idem (s : String) : pyStrip (pyStrip s) = pyStrip s :=
  congrArg String.mk (pyStripL_idem s.data)

/-- A list with the flowchart keyword as prefix also has it (lowercased) as
a prefix of its lowercased form. -/
theorem flowchart_prefix_lower {l : List Char}
    (h : flowchartKeyword <+: l) :
    flowchartKeyword.isPrefixOf (l.map Char.toLower) = true := by
  have h2 : flowchartKeyword.map Char.toLower <+: l.map Char.toLower :=
    h.map Char.toLower
  have h3 : flowchartKeyword.map Char.toLower = flowchartKeyword := by decide
  rw [h3] at h2
  exact Iff.mpr List.isPrefixOf_iff_prefix h2

/-- Stripping a normalized draft keeps the flowchart declaration at the
front and keeps the string nonempty. -/
theorem ensure_strip_flowchart (s : String) :
    lowerStartsWithFlowchart (pyStrip (_ensure_mermaid_header s)) = true ∧
    pyStrip (_ensure_mermaid_header s) ≠ "" := by
  cases h : lowerStartsWithFlowchart (pyStrip s) with
  | true =>
    have he : _ensure_mermaid_header s = pyStrip s := by
      unfold _ensure_mermaid_header
      simp [h]
    rw [he, pyStrip_idem]
    refine ⟨h, ?_⟩
    intro hnil
    rw [hnil] at h
    exact absurd h (by decide)
  | false =>
    have he : _ensure_mermaid_header s = ("flowchart TD\n") ++ pyStrip s := by
      unfold _ensure_mermaid_header
      simp [h]
    rw [he]
    have hcat : flowchartKeyword ++ (" TD\n").data = ("flowchart TD\n").data :=
      by decide
    have hpre : flowchartKeyword <+: (("flowchart TD\n") ++ pyStrip s).data := by
      refine ⟨(" TD\n").data ++ (pyStrip s).data, ?_⟩
      show flowchartKeyword ++ ((" TD\n").data ++ (pyStrip s).data) =
        ("flowchart TD\n").data ++ (pyStrip s).data
      rw [← List.append_assoc, hcat]
    have hstrip := prefix_pyStripL (by decide) (by decide) hpre
    constructor
    · exact flowchart_prefix_lower hstrip
    · intro hnil
      have hlen := hstrip.length_le
      have hdat : (pyStrip (("flowchart TD\n") ++ pyStrip s)).data = [] := by
        rw [hnil]
      have : pyStripL ((("flowchart TD\n") ++ pyStrip s).data) = [] := hdat
      rw [this] at hlen
      exact absurd hlen (by decide)

/-- The sequence of drafts held by the loop during the remaining iterations:
the draft current at each loop entry, following exactly the branching of
`runLoop` on the same oracle responses (the last element is the draft the
loop finalizes or holds when it stops). -/
def runLoopDrafts (o : CompletionOracle) :
    FlowchartDraft → Nat → Nat → List FlowchartDraft
  | d, _, 0 => [d]
  | d, idx, fuel + 1 =>
    match o.critiqueResponses idx with
    | .ok c =>
      if c.is_satisfactory then [d]
      else
        match o.reviseResponses idx with
        | .ok d2 => d :: runLoopDrafts o (normalizeDraft d2) (idx + 1) fuel
        | _ => [d]
    | _ => [d]

/-- All Drafts that exist during a run of `FlowchartAgent.run`: the
normalized initial draft followed by the normalized revisions actually
consumed along the run's path. -/
def runDrafts (o : CompletionOracle) (max_iterations : Nat) :
    List FlowchartDraft :=
  match o.draftResponse with
  | .ok d0 => runLoopDrafts o (normalizeDraft d0) 0 max_iterations
  | _ => []

/-- Every draft held during the loop is header-normalized, provided the
entering draft is. -/
theorem runLoopDrafts_normalized (o : CompletionOracle) :
    ∀ fuel d idx,
      (∃ t, d.mermaid_code = _ensure_mermaid_header t) →
      ∀ d' ∈ runLoopDrafts o d idx fuel,
        ∃ t, d'.mermaid_code = _ensure_mermaid_header t := by
  intro fuel
  induction fuel with
  | zero =>
    intro d idx hd d' hmem
    simp only [runLoopDrafts, List.mem_singleton] at hmem
    rwa [hmem]
  | succ fuel ih =>
    intro d idx hd d' hmem
    cases hc : o.critiqueResponses idx with
    | validationError e =>
      simp only [runLoopDrafts, hc, List.mem_singleton] at hmem
      rwa [hmem]
    | otherError e =>
      simp only [runLoopDrafts, hc, List.mem_singleton] at hmem
      rwa [hmem]
    | ok c =>
      by_cases hs : c.is_satisfactory
      · simp only [runLoopDrafts, hc, hs, if_true, List.mem_singleton] at hmem
        rwa [hmem]
      · cases hrv : o.reviseResponses idx with
        | validationError e =>
          simp [runLoopDrafts, hc, hs, hrv] at hmem
          rwa [hmem]
        | otherError e =>
          simp [runLoopDrafts, hc, hs, hrv] at hmem
          rwa [hmem]
        | ok d2 =>
          simp [runLoopDrafts, hc, hs, hrv] at hmem
          rcases hmem with hmem | hmem
          · rwa [hmem]
          · exact ih (normalizeDraft d2) (idx + 1) ⟨d2.mermaid_code, rfl⟩
              d' hmem

/-- If the loop succeeds, the Result content is the strip of the content of
one of the drafts held during the loop. -/
theorem runLoop_ok_mem_drafts (o : CompletionOracle) (prompt : String)
    (sh : Bool) (path : String) :
    ∀ fuel d idx r,
      (runLoop o prompt sh path d idx fuel).1 = Except.ok r →
      ∃ d' ∈ runLoopDrafts o d idx fuel,
        r.mermaid_code = pyStrip (FlowchartDraft.mermaid_code d') := by
  intro fuel
  induction fuel with
  | zero =>
    intro d idx r h
    simp only [runLoop] at h
    have hr : (FlowchartAgent.finalize prompt d.mermaid_code sh path).1 = r :=
      by simpa using h
    refine ⟨d, by simp [runLoopDrafts], ?_⟩
    rw [← hr, finalize_fst]
  | succ fuel ih =>
    intro d idx r h
    cases hc : o.critiqueResponses idx with
    | validationError e =>
      simp only [runLoop, hc] at h
      exact absurd h (by simp)
    | otherError e =>
      simp only [runLoop, hc] at h
      exact absurd h (by simp)
    | ok c =>
      by_cases hs : c.is_satisfactory
      · simp only [runLoop, hc, hs, if_true] at h
        have hr : (FlowchartAgent.finalize prompt d.mermaid_code sh path).1 = r
          := by simpa using h
        refine ⟨d, by simp [runLoopDrafts, hc, hs], ?_⟩
        rw [← hr, finalize_fst]
      · cases hrv : o.reviseResponses idx with
        | validationError e =>
          simp only [runLoop, hc, hs, hrv] at h
          exact absurd h (by simp)
        | otherError e =>
          simp only [runLoop, hc, hs, hrv] at h
          exact absurd h (by simp)
        | ok d2 =>
          simp only [runLoop, hc, hs, hrv] at h
          obtain ⟨d', hmem, heq⟩ := ih (normalizeDraft d2) (idx + 1) r
            (by simpa using h)
          refine ⟨d', ?_, heq⟩
          simp [runLoopDrafts, hc, hs, hrv]
          exact Or.inr hmem

/-- Claim C5: a successful run's Result content is never empty, always
starts (case-insensitively) with the flowchart declaration keyword, and is
the strip of the content of some Draft that existed during that run (all of
which are header-normalized) — never an intermediate partial string. -/
theorem C5_result_invariant (N : Nat) (o : CompletionOracle)
    (user_prompt : String) (save_html : Bool) (output_path : String)
    (r : FlowchartResult)
    (h : (FlowchartAgent.run N o user_prompt save_html output_path).1 =
      Except.ok r) :
    r.mermaid_code ≠ "" ∧
    lowerStartsWithFlowchart r.mermaid_code = true ∧
    ∃ d ∈ runDrafts o N,
      r.mermaid_code = pyStrip (FlowchartDraft.mermaid_code d) := by
  cases hd : o.draftResponse with
  | validationError e =>
    simp only [FlowchartAgent.run, hd] at h
    exact absurd h (by simp)
  | otherError e =>
    simp only [FlowchartAgent.run, hd] at h
    exact absurd h (by simp)
  | ok d0 =>
    simp only [FlowchartAgent.run, hd] at h
    obtain ⟨d', hmem, heq⟩ := runLoop_ok_mem_drafts o user_prompt save_html
      output_path N (normalizeDraft d0) 0 r h
    obtain ⟨t, ht⟩ := runLoopDrafts_normalized o N (normalizeDraft d0) 0
      ⟨d0.mermaid_code, rfl⟩ d' hmem
    have hmem' : d' ∈ runDrafts o N := by
      simp only [runDrafts, hd]
      exact hmem
    have hp := ensure_strip_flowchart t
    rw [heq, ht]
    exact ⟨hp.2, hp.1, ⟨d', hmem', by rw [ht]⟩⟩

/-- Oracle for the C5 witness. -/
def c5oracle : CompletionOracle :=
  ⟨ChainResponse.ok ⟨"A-->B", "r"⟩,
   fun _ => ChainResponse.ok ⟨true, "fine"⟩,
   fun _ => ChainResponse.ok ⟨"C-->D", "r2"⟩⟩

/-- Witness for C5 at a concrete successful run. -/
theorem C5_result_invariant_witness :
    ("flowchart TD\nA-->B" : String) ≠ "" ∧
    lowerStartsWithFlowchart ("flowchart TD\nA-->B") = true ∧
    ∃ d ∈ runDrafts c5oracle 1,
      ("flowchart TD\nA-->B" : String) =
        pyStrip (FlowchartDraft.mermaid_code d) :=
  C5_result_invariant 1 c5oracle ("p") false ("out.html")
    ⟨"p", "flowchart TD\nA-->B", none⟩ rfl

/-! ## Claims C6 and C10: error handling -/

/-- A failing loop never invokes the presenter. -/
theorem runLoop_error_no_presenter (o : CompletionOracle) (prompt : String)
    (sh : Bool) (path : String) :
    ∀ fuel d idx err,
      (runLoop o prompt sh path d idx fuel).1 = Except.error err →
      countPresenterCalls (runLoop o prompt sh path d idx fuel).2 = 0 := by
  intro fuel
  induction fuel with
  | zero =>
    intro d idx err h
    simp only [runLoop] at h
    exact absurd h (by simp)
  | succ fuel ih =>
    intro d idx err h
    cases hc : o.critiqueResponses idx with
    | validationError e =>
      simp [runLoop, hc, countPresenterCalls, CallEvent.isPresenter]
    | otherError e =>
      simp [runLoop, hc, countPresenterCalls, CallEvent.isPresenter]
    | ok c =>
      by_cases hs : c.is_satisfactory
      · simp only [runLoop, hc, hs, if_true] at h
        exact absurd h (by simp)
      · cases hrv : o.reviseResponses idx with
        | validationError e =>
          simp [runLoop, hc, hs, hrv, countPresenterCalls,
            CallEvent.isPresenter]
        | otherError e =>
          simp [runLoop, hc, hs, hrv, countPresenterCalls,
            CallEvent.isPresenter]
        | ok d2 =>
          have hrec : (runLoop o prompt sh path (normalizeDraft d2) (idx + 1)
              fuel).1 = Except.error err := by
            simp only [runLoop, hc, hs, hrv] at h
            simpa using h
          have := ih (normalizeDraft d2) (idx + 1) err hrec
          simp only [runLoop, hc, hs, hrv]
          simp [countPresenterCalls_cons, CallEvent.isPresenter, this]

/-- The phase-labelled error raised by `_critique` for a failing
critique-chain invocation: `ValidationError` becomes
`CritiqueParsingFailure`; any other exception propagates as itself. -/
def critiqueFailureError :
    ChainResponse FlowchartCritique → Option AgentError
  | .validationError e => some (AgentError.critiqueParsingFailure e)
  | .otherError e => some (AgentError.uncaught e)
  | .ok _ => none

/-- The phase-labelled error raised by `_revise` for a failing
revision-chain invocation: `ValidationError` becomes
`RevisionParsingFailure`; any other exception propagates as itself. -/
def revisionFailureError :
    ChainResponse FlowchartDraft → Option AgentError
  | .validationError e => some (AgentError.revisionParsingFailure e)
  | .otherError e => some (AgentError.uncaught e)
  | .ok _ => none

/-- If the critique chain fails at loop iteration `i` (reachable because
the previous `i` critiques were unsatisfactory and the previous `i`
revisions parsed), the loop stops at once with the corresponding error:
`i + 1` critique calls, `i` revise calls, nothing more. -/
theorem runLoop_critique_failure (o : CompletionOracle) (prompt : String)
    (sh : Bool) (path : String) :
    ∀ i fuel d idx err,
      (∀ j, j < i → ∃ g, o.critiqueResponses (idx + j) =
        ChainResponse.ok ⟨false, g⟩) →
      (∀ j, j < i → ∃ d2, o.reviseResponses (idx + j) =
        ChainResponse.ok d2) →
      critiqueFailureError (o.critiqueResponses (idx + i)) = some err →
      i < fuel →
      (runLoop o prompt sh path d idx fuel).1 = Except.error err ∧
      countCritiqueCalls (runLoop o prompt sh path d idx fuel).2 = i + 1 ∧
      countReviseCalls (runLoop o prompt sh path d idx fuel).2 = i ∧
      countDraftCalls (runLoop o prompt sh path d idx fuel).2 = 0 ∧
      countPresenterCalls (runLoop o prompt sh path d idx fuel).2 = 0 := by
  intro i
  induction i with
  | zero =>
    intro fuel d idx err _ _ hfail hlt
    cases fuel with
    | zero => omega
    | succ m =>
      rw [Nat.add_zero] at hfail
      cases hc : o.critiqueResponses idx with
      | ok c =>
        rw [hc] at hfail
        exact absurd hfail (by simp [critiqueFailureError])
      | validationError e =>
        rw [hc] at hfail
        simp only [critiqueFailureError, Option.some.injEq] at hfail
        subst hfail
        refine ⟨?_, ?_, ?_, ?_, ?_⟩ <;>
          simp [runLoop, hc, countCritiqueCalls, countReviseCalls,
            countDraftCalls, countPresenterCalls, List.countP_cons,
            CallEvent.isCritique, CallEvent.isRevise, CallEvent.isDraft,
            CallEvent.isPresenter]
      | otherError e =>
        rw [hc] at hfail
        simp only [critiqueFailureError, Option.some.injEq] at hfail
        subst hfail
        refine ⟨?_, ?_, ?_, ?_, ?_⟩ <;>
          simp [runLoop, hc, countCritiqueCalls, countReviseCalls,
            countDraftCalls, countPresenterCalls, List.countP_cons,
            CallEvent.isCritique, CallEvent.isRevise, CallEvent.isDraft,
            CallEvent.isPresenter]
  | succ i ih =>
    intro fuel d idx err hcr hrv hfail hlt
    cases fuel with
    | zero => omega
    | succ m =>
      obtain ⟨g, hc0⟩ := hcr 0 (Nat.succ_pos i)
      obtain ⟨d2, hr0⟩ := hrv 0 (Nat.succ_pos i)
      rw [Nat.add_zero] at hc0 hr0
      have hcr2 : ∀ j, j < i → ∃ g2, o.critiqueResponses ((idx + 1) + j) =
          ChainResponse.ok ⟨false, g2⟩ := by
        intro j hj
        have := hcr (j + 1) (by omega)
        rwa [show idx + (j + 1) = (idx + 1) + j by omega] at this
      have hrv2 : ∀ j, j < i → ∃ d3, o.reviseResponses ((idx + 1) + j) =
          ChainResponse.ok d3 := by
        intro j hj
        have := hrv (j + 1) (by omega)
        rwa [show idx + (j + 1) = (idx + 1) + j by omega] at this
      have hfail2 : critiqueFailureError
          (o.critiqueResponses ((idx + 1) + i)) = some err := by
        rwa [show (idx + 1) + i = idx + (i + 1) by omega]
      have hih := ih m (normalizeDraft d2) (idx + 1) err hcr2 hrv2 hfail2
        (by omega)
      refine ⟨?_, ?_, ?_, ?_, ?_⟩
      · simp only [runLoop, hc0, hr0]
        exact hih.1
      · simp only [runLoop, hc0, hr0]
        simp [countCritiqueCalls_cons, CallEvent.isCritique,
          CallEvent.isRevise, hih.2.1]
      · simp only [runLoop, hc0, hr0]
        simp [countReviseCalls_cons, CallEvent.isCritique,
          CallEvent.isRevise, hih.2.2.1]
      · simp only [runLoop, hc0, hr0]
        simp [countDraftCalls_cons, CallEvent.isDraft, hih.2.2.2.1]
      · simp only [runLoop, hc0, hr0]
        simp [countPresenterCalls_cons, CallEvent.isPresenter, hih.2.2.2.2]

/-- If the revision chain fails at loop iteration `i` (reachable as above,
with the i-th critique itself unsatisfactory), the loop stops at once with
the corresponding error: `i + 1` critique calls, `i + 1` revise calls,
nothing more. -/
theorem runLoop_revision_failure (o : CompletionOracle) (prompt : String)
    (sh : Bool) (path : String) :
    ∀ i fuel d idx g err,
      (∀ j, j < i → ∃ g2, o.critiqueResponses (idx + j) =
        ChainResponse.ok ⟨false, g2⟩) →
      (∀ j, j < i → ∃ d2, o.reviseResponses (idx + j) =
        ChainResponse.ok d2) →
      o.critiqueResponses (idx + i) = ChainResponse.ok ⟨false, g⟩ →
      revisionFailureError (o.reviseResponses (idx + i)) = some err →
      i < fuel →
      (runLoop o prompt sh path d idx fuel).1 = Except.error err ∧
      countCritiqueCalls (runLoop o prompt sh path d idx fuel).2 = i + 1 ∧
      countReviseCalls (runLoop o prompt sh path d idx fuel).2 = i + 1 ∧
      countDraftCalls (runLoop o prompt sh path d idx fuel).2 = 0 ∧
      countPresenterCalls (runLoop o prompt sh path d idx fuel).2 = 0 := by
  intro i
  induction i with
  | zero =>
    intro fuel d idx g err _ _ hci hfail hlt
    cases fuel with
    | zero => omega
    | succ m =>
      rw [Nat.add_zero] at hci hfail
      cases hr : o.reviseResponses idx with
      | ok d2 =>
        rw [hr] at hfail
        exact absurd hfail (by simp [revisionFailureError])
      | validationError e =>
        rw [hr] at hfail
        simp only [revisionFailureError, Option.some.injEq] at hfail
        subst hfail
        refine ⟨?_, ?_, ?_, ?_, ?_⟩ <;>
          simp [runLoop, hci, hr, countCritiqueCalls, countReviseCalls,
            countDraftCalls, countPresenterCalls, List.countP_cons,
            CallEvent.isCritique, CallEvent.isRevise, CallEvent.isDraft,
            CallEvent.isPresenter]
      | otherError e =>
        rw [hr] at hfail
        simp only [revisionFailureError, Option.some.injEq] at hfail
        subst hfail
        refine ⟨?_, ?_, ?_, ?_, ?_⟩ <;>
          simp [runLoop, hci, hr, countCritiqueCalls, countReviseCalls,
            countDraftCalls, countPresenterCalls, List.countP_cons,
            CallEvent.isCritique, CallEvent.isRevise, CallEvent.isDraft,
            CallEvent.isPresenter]
  | succ i ih =>
    intro fuel d idx g err hcr hrv hci hfail hlt
    cases fuel with
    | zero => omega
    | succ m =>
      obtain ⟨g0, hc0⟩ := hcr 0 (Nat.succ_pos i)
      obtain ⟨d2, hr0⟩ := hrv 0 (Nat.succ_pos i)
      rw [Nat.add_zero] at hc0 hr0
      have hcr2 : ∀ j, j < i → ∃ g2, o.critiqueResponses ((idx + 1) + j) =
          ChainResponse.ok ⟨false, g2⟩ := by
        intro j hj
        have := hcr (j + 1) (by omega)
        rwa [show idx + (j + 1) = (idx + 1) + j by omega] at this
      have hrv2 : ∀ j, j < i → ∃ d3, o.reviseResponses ((idx + 1) + j) =
          ChainResponse.ok d3 := by
        intro j hj
        have := hrv (j + 1) (by omega)
        rwa [show idx + (j + 1) = (idx + 1) + j by omega] at this
      have hci2 : o.critiqueResponses ((idx + 1) + i) =
          ChainResponse.ok ⟨false, g⟩ := by
        rwa [show (idx + 1) + i = idx + (i + 1) by omega]
      have hfail2 : revisionFailureError
          (o.reviseResponses ((idx + 1) + i)) = some err := by
        rwa [show (idx + 1) + i = idx + (i + 1) by omega]
      have hih := ih m (normalizeDraft d2) (idx + 1) g err hcr2 hrv2 hci2
        hfail2 (by omega)
      refine ⟨?_, ?_, ?_, ?_, ?_⟩
      · simp only [runLoop, hc0, hr0]
        exact hih.1
      · simp only [runLoop, hc0, hr0]
        simp [countCritiqueCalls_cons, CallEvent.isCritique,
          CallEvent.isRevise, hih.2.1]
      · simp only [runLoop, hc0, hr0]
        simp [countReviseCalls_cons, CallEvent.isCritique,
          CallEvent.isRevise, hih.2.2.1]
      · simp only [runLoop, hc0, hr0]
        simp [countDraftCalls_cons, CallEvent.isDraft, hih.2.2.2.1]
      · simp only [runLoop, hc0, hr0]
        simp [countPresenterCalls_cons, CallEvent.isPresenter, hih.2.2.2.2]

/-- Claim C6: a `ValidationError` on the draft call, or on the critique or
revision call of any reachable iteration `i`, makes `run` fail immediately
with the corresponding phase-labelled failure wrapping the cause — the
failing call happens exactly once (no retry), no Result is produced, and no
presenter call occurs (in general, a failing run never calls the
presenter). -/
theorem C6_typed_failures :
    (∀ N o (prompt : String) (sh : Bool) (path : String) e,
      CompletionOracle.draftResponse o = ChainResponse.validationError e →
      FlowchartAgent.run N o prompt sh path =
        (Except.error (AgentError.draftGenerationFailure e),
          [CallEvent.draftCall])) ∧
    (∀ N o (prompt : String) (sh : Bool) (path : String) d0 i e,
      CompletionOracle.draftResponse o = ChainResponse.ok d0 →
      (∀ j, j < i → ∃ g, o.critiqueResponses j =
        ChainResponse.ok ⟨false, g⟩) →
      (∀ j, j < i → ∃ d2, o.reviseResponses j = ChainResponse.ok d2) →
      o.critiqueResponses i = ChainResponse.validationError e →
      i < N →
      (FlowchartAgent.run N o prompt sh path).1 =
        Except.error (AgentError.critiqueParsingFailure e) ∧
      countDraftCalls (FlowchartAgent.run N o prompt sh path).2 = 1 ∧
      countCritiqueCalls (FlowchartAgent.run N o prompt sh path).2 = i + 1 ∧
      countReviseCalls (FlowchartAgent.run N o prompt sh path).2 = i ∧
      countPresenterCalls (FlowchartAgent.run N o prompt sh path).2 = 0) ∧
    (∀ N o (prompt : String) (sh : Bool) (path : String) d0 i g e,
      CompletionOracle.draftResponse o = ChainResponse.ok d0 →
      (∀ j, j < i → ∃ g2, o.critiqueResponses j =
        ChainResponse.ok ⟨false, g2⟩) →
      (∀ j, j < i → ∃ d2, o.reviseResponses j = ChainResponse.ok d2) →
      o.critiqueResponses i = ChainResponse.ok ⟨false, g⟩ →
      o.reviseResponses i = ChainResponse.validationError e →
      i < N →
      (FlowchartAgent.run N o prompt sh path).1 =
        Except.error (AgentError.revisionParsingFailure e) ∧
      countDraftCalls (FlowchartAgent.run N o prompt sh path).2 = 1 ∧
      countCritiqueCalls (FlowchartAgent.run N o prompt sh path).2 = i + 1 ∧
      countReviseCalls (FlowchartAgent.run N o prompt sh path).2 = i + 1 ∧
      countPresenterCalls (FlowchartAgent.run N o prompt sh path).2 = 0) ∧
    (∀ N o (prompt : String) (sh : Bool) (path : String) err,
      (FlowchartAgent.run N o prompt sh path).1 = Except.error err →
      countPresenterCalls (FlowchartAgent.run N o prompt sh path).2 = 0) := by
  refine ⟨?_, ?_, ?_, ?_⟩
  · intro N o prompt sh path e hd
    simp [FlowchartAgent.run, hd]
  · intro N o prompt sh path d0 i e hd hcr hrv hci hiN
    have hcr0 : ∀ j, j < i → ∃ g, o.critiqueResponses (0 + j) =
        ChainResponse.ok ⟨false, g⟩ := by
      intro j hj
      rw [Nat.zero_add]
      exact hcr j hj
    have hrv0 : ∀ j, j < i → ∃ d2, o.reviseResponses (0 + j) =
        ChainResponse.ok d2 := by
      intro j hj
      rw [Nat.zero_add]
      exact hrv j hj
    have hfail : critiqueFailureError (o.critiqueResponses (0 + i)) =
        some (AgentError.critiqueParsingFailure e) := by
      rw [Nat.zero_add, hci]
      rfl
    have hl := runLoop_critique_failure o prompt sh path i N
      (normalizeDraft d0) 0 (AgentError.critiqueParsingFailure e)
      hcr0 hrv0 hfail hiN
    refine ⟨?_, ?_, ?_, ?_, ?_⟩
    · simp only [FlowchartAgent.run, hd]
      exact hl.1
    · simp only [FlowchartAgent.run, hd]
      simp [countDraftCalls_cons, CallEvent.isDraft, hl.2.2.2.1]
    · simp only [FlowchartAgent.run, hd]
      simp [countCritiqueCalls_cons, CallEvent.isDraft,
        CallEvent.isCritique, hl.2.1]
    · simp only [FlowchartAgent.run, hd]
      simp [countReviseCalls_cons, CallEvent.isDraft, CallEvent.isRevise,
        hl.2.2.1]
    · simp only [FlowchartAgent.run, hd]
      simp [countPresenterCalls_cons, CallEvent.isPresenter, hl.2.2.2.2]
  · intro N o prompt sh path d0 i g e hd hcr hrv hci hri hiN
    have hcr0 : ∀ j, j < i → ∃ g2, o.critiqueResponses (0 + j) =
        ChainResponse.ok ⟨false, g2⟩ := by
      intro j hj
      rw [Nat.zero_add]
      exact hcr j hj
    have hrv0 : ∀ j, j < i → ∃ d2, o.reviseResponses (0 + j) =
        ChainResponse.ok d2 := by
      intro j hj
      rw [Nat.zero_add]
      exact hrv j hj
    have hci0 : o.critiqueResponses (0 + i) = ChainResponse.ok ⟨false, g⟩ :=
      by rwa [Nat.zero_add]
    have hfail : revisionFailureError (o.reviseResponses (0 + i)) =
        some (AgentError.revisionParsingFailure e) := by
      rw [Nat.zero_add, hri]
      rfl
    have hl := runLoop_revision_failure o prompt sh path i N
      (normalizeDraft d0) 0 g (AgentError.revisionParsingFailure e)
      hcr0 hrv0 hci0 hfail hiN
    refine ⟨?_, ?_, ?_, ?_, ?_⟩
    · simp only [FlowchartAgent.run, hd]
      exact hl.1
    · simp only [FlowchartAgent.run, hd]
      simp [countDraftCalls_cons, CallEvent.isDraft, hl.2.2.2.1]
    · simp only [FlowchartAgent.run, hd]
      simp [countCritiqueCalls_cons, CallEvent.isDraft,
        CallEvent.isCritique, hl.2.1]
    · simp only [FlowchartAgent.run, hd]
      simp [countReviseCalls_cons, CallEvent.isDraft, CallEvent.isRevise,
        hl.2.2.1]
    · simp only [FlowchartAgent.run, hd]
      simp [countPresenterCalls_cons, CallEvent.isPresenter, hl.2.2.2.2]
  · intro N o prompt sh path err h
    cases hd : o.draftResponse with
    | validationError e =>
      simp [FlowchartAgent.run, hd, countPresenterCalls, CallEvent.isPresenter]
    | otherError e =>
      simp [FlowchartAgent.run, hd, countPresenterCalls, CallEvent.isPresenter]
    | ok d0 =>
      have hrec : (runLoop o prompt sh path (normalizeDraft d0) 0 N).1 =
          Except.error err := by
        simp only [FlowchartAgent.run, hd] at h
        simpa using h
      have := runLoop_error_no_presenter o prompt sh path N
        (normalizeDraft d0) 0 err hrec
      simp only [FlowchartAgent.run, hd]
      simp [countPresenterCalls_cons, CallEvent.isPresenter, this]

/-- Oracle whose draft call raises `ValidationError`. -/
def c6oracleDraft : CompletionOracle :=
  ⟨ChainResponse.validationError ("bad json"),
   fun _ => ChainResponse.ok ⟨true, "fine"⟩,
   fun _ => ChainResponse.ok ⟨"C", "r"⟩⟩

/-- Oracle whose second critique call (iteration 1) raises
`ValidationError`. -/
def c6oracleCrit : CompletionOracle :=
  ⟨ChainResponse.ok ⟨"A-->B", "r"⟩,
   fun i => if i = 0 then ChainResponse.ok ⟨false, "bad"⟩
     else ChainResponse.validationError ("bad critique"),
   fun _ => ChainResponse.ok ⟨"C", "r"⟩⟩

/-- Oracle whose second revision call (iteration 1) raises
`ValidationError`. -/
def c6oracleRev : CompletionOracle :=
  ⟨ChainResponse.ok ⟨"A-->B", "r"⟩,
   fun _ => ChainResponse.ok ⟨false, "bad"⟩,
   fun i => if i = 0 then ChainResponse.ok ⟨"C", "r"⟩
     else ChainResponse.validationError ("bad revision")⟩

/-- Witness for C6: draft failure, plus critique and revision failures at
iteration 1 of an N = 3 run, plus the no-presenter conjunct. -/
theorem C6_typed_failures_witness :
    FlowchartAgent.run 1 c6oracleDraft ("p") true ("out.html") =
      (Except.error (AgentError.draftGenerationFailure ("bad json")),
        [CallEvent.draftCall]) ∧
    ((FlowchartAgent.run 3 c6oracleCrit ("p") true ("out.html")).1 =
        Except.error (AgentError.critiqueParsingFailure ("bad critique")) ∧
      countDraftCalls
        (FlowchartAgent.run 3 c6oracleCrit ("p") true ("out.html")).2 = 1 ∧
      countCritiqueCalls
        (FlowchartAgent.run 3 c6oracleCrit ("p") true ("out.html")).2 = 2 ∧
      countReviseCalls
        (FlowchartAgent.run 3 c6oracleCrit ("p") true ("out.html")).2 = 1 ∧
      countPresenterCalls
        (FlowchartAgent.run 3 c6oracleCrit ("p") true ("out.html")).2 = 0) ∧
    ((FlowchartAgent.run 3 c6oracleRev ("p") true ("out.html")).1 =
        Except.error (AgentError.revisionParsingFailure ("bad revision")) ∧
      countDraftCalls
        (FlowchartAgent.run 3 c6oracleRev ("p") true ("out.html")).2 = 1 ∧
      countCritiqueCalls
        (FlowchartAgent.run 3 c6oracleRev ("p") true ("out.html")).2 = 2 ∧
      countReviseCalls
        (FlowchartAgent.run 3 c6oracleRev ("p") true ("out.html")).2 = 2 ∧
      countPresenterCalls
        (FlowchartAgent.run 3 c6oracleRev ("p") true ("out.html")).2 = 0) ∧
    countPresenterCalls
      (FlowchartAgent.run 1 c6oracleDraft ("p") true ("out.html")).2 = 0 :=
  ⟨C6_typed_failures.1 1 c6oracleDraft ("p") true ("out.html")
      ("bad json") rfl,
   C6_typed_failures.2.1 3 c6oracleCrit ("p") true ("out.html")
      ⟨"A-->B", "r"⟩ 1 ("bad critique") rfl
      (fun j hj => by
        have hj0 : j = 0 := by omega
        subst hj0
        exact ⟨"bad", rfl⟩)
      (fun j hj => by
        have hj0 : j = 0 := by omega
        subst hj0
        exact ⟨⟨"C", "r"⟩, rfl⟩)
      rfl (by omega),
   C6_typed_failures.2.2.1 3 c6oracleRev ("p") true ("out.html")
      ⟨"A-->B", "r"⟩ 1 ("bad") ("bad revision") rfl
      (fun j hj => by
        have hj0 : j = 0 := by omega
        subst hj0
        exact ⟨"bad", rfl⟩)
      (fun j hj => by
        have hj0 : j = 0 := by omega
        subst hj0
        exact ⟨⟨"C", "r"⟩, rfl⟩)
      rfl rfl (by omega),
   C6_typed_failures.2.2.2 1 c6oracleDraft ("p") true ("out.html")
      (AgentError.draftGenerationFailure ("bad json")) rfl⟩

/-- Claim C10: only `ValidationError` is converted into the phase-labelled
failures; any other exception raised inside the draft chain, or inside the
critique or revision chain at any reachable iteration `i`, propagates to
the caller unchanged, with no phase-identifying wrapper. -/
theorem C10_other_exceptions_propagate :
    (∀ N o (prompt : String) (sh : Bool) (path : String) e,
      CompletionOracle.draftResponse o = ChainResponse.otherError e →
      FlowchartAgent.run N o prompt sh path =
        (Except.error (AgentError.uncaught e), [CallEvent.draftCall])) ∧
    (∀ N o (prompt : String) (sh : Bool) (path : String) d0 i e,
      CompletionOracle.draftResponse o = ChainResponse.ok d0 →
      (∀ j, j < i → ∃ g, o.critiqueResponses j =
        ChainResponse.ok ⟨false, g⟩) →
      (∀ j, j < i → ∃ d2, o.reviseResponses j = ChainResponse.ok d2) →
      o.critiqueResponses i = ChainResponse.otherError e →
      i < N →
      (FlowchartAgent.run N o prompt sh path).1 =
        Except.error (AgentError.uncaught e) ∧
      countDraftCalls (FlowchartAgent.run N o prompt sh path).2 = 1 ∧
      countCritiqueCalls (FlowchartAgent.run N o prompt sh path).2 = i + 1 ∧
      countReviseCalls (FlowchartAgent.run N o prompt sh path).2 = i) ∧
    (∀ N o (prompt : String) (sh : Bool) (path : String) d0 i g e,
      CompletionOracle.draftResponse o = ChainResponse.ok d0 →
      (∀ j, j < i → ∃ g2, o.critiqueResponses j =
        ChainResponse.ok ⟨false, g2⟩) →
      (∀ j, j < i → ∃ d2, o.reviseResponses j = ChainResponse.ok d2) →
      o.critiqueResponses i = ChainResponse.ok ⟨false, g⟩ →
      o.reviseResponses i = ChainResponse.otherError e →
      i < N →
      (FlowchartAgent.run N o prompt sh path).1 =
        Except.error (AgentError.uncaught e) ∧
      countDraftCalls (FlowchartAgent.run N o prompt sh path).2 = 1 ∧
      countCritiqueCalls (FlowchartAgent.run N o prompt sh path).2 = i + 1 ∧
      countReviseCalls (FlowchartAgent.run N o prompt sh path).2 = i + 1)
    := by
  refine ⟨?_, ?_, ?_⟩
  · intro N o prompt sh path e hd
    simp [FlowchartAgent.run, hd]
  · intro N o prompt sh path d0 i e hd hcr hrv hci hiN
    have hcr0 : ∀ j, j < i → ∃ g, o.critiqueResponses (0 + j) =
        ChainResponse.ok ⟨false, g⟩ := by
      intro j hj
      rw [Nat.zero_add]
      exact hcr j hj
    have hrv0 : ∀ j, j < i → ∃ d2, o.reviseResponses (0 + j) =
        ChainResponse.ok d2 := by
      intro j hj
      rw [Nat.zero_add]
      exact hrv j hj
    have hfail : critiqueFailureError (o.critiqueResponses (0 + i)) =
        some (AgentError.uncaught e) := by
      rw [Nat.zero_add, hci]
      rfl
    have hl := runLoop_critique_failure o prompt sh path i N
      (normalizeDraft d0) 0 (AgentError.uncaught e) hcr0 hrv0 hfail hiN
    refine ⟨?_, ?_, ?_, ?_⟩
    · simp only [FlowchartAgent.run, hd]
      exact hl.1
    · simp only [FlowchartAgent.run, hd]
      simp [countDraftCalls_cons, CallEvent.isDraft, hl.2.2.2.1]
    · simp only [FlowchartAgent.run, hd]
      simp [countCritiqueCalls_cons, CallEvent.isDraft,
        CallEvent.isCritique, hl.2.1]
    · simp only [FlowchartAgent.run, hd]
      simp [countReviseCalls_cons, CallEvent.isDraft, CallEvent.isRevise,
        hl.2.2.1]
  · intro N o prompt sh path d0 i g e hd hcr hrv hci hri hiN
    have hcr0 : ∀ j, j < i → ∃ g2, o.critiqueResponses (0 + j) =
        ChainResponse.ok ⟨false, g2⟩ := by
      intro j hj
      rw [Nat.zero_add]
      exact hcr j hj
    have hrv0 : ∀ j, j < i → ∃ d2, o.reviseResponses (0 + j) =
        ChainResponse.ok d2 := by
      intro j hj
      rw [Nat.zero_add]
      exact hrv j hj
    have hci0 : o.critiqueResponses (0 + i) = ChainResponse.ok ⟨false, g⟩ :=
      by rwa [Nat.zero_add]
    have hfail : revisionFailureError (o.reviseResponses (0 + i)) =
        some (AgentError.uncaught e) := by
      rw [Nat.zero_add, hri]
      rfl
    have hl := runLoop_revision_failure o prompt sh path i N
      (normalizeDraft d0) 0 g (AgentError.uncaught e) hcr0 hrv0 hci0
      hfail hiN
    refine ⟨?_, ?_, ?_, ?_⟩
    · simp only [FlowchartAgent.run, hd]
      exact hl.1
    · simp only [FlowchartAgent.run, hd]
      simp [countDraftCalls_cons, CallEvent.isDraft, hl.2.2.2.1]
    · simp only [FlowchartAgent.run, hd]
      simp [countCritiqueCalls_cons, CallEvent.isDraft,
        CallEvent.isCritique, hl.2.1]
    · simp only [FlowchartAgent.run, hd]
      simp [countReviseCalls_cons, CallEvent.isDraft, CallEvent.isRevise,
        hl.2.2.1]

/-- Oracle whose draft call raises a non-ValidationError exception. -/
def c10oracleDraft : CompletionOracle :=
  ⟨ChainResponse.otherError ("connection reset"),
   fun _ => ChainResponse.ok ⟨true, "fine"⟩,
   fun _ => ChainResponse.ok ⟨"C", "r"⟩⟩

/-- Oracle whose second critique call (iteration 1) raises a
non-ValidationError exception. -/
def c10oracleCrit : CompletionOracle :=
  ⟨ChainResponse.ok ⟨"A-->B", "r"⟩,
   fun i => if i = 0 then ChainResponse.ok ⟨false, "bad"⟩
     else ChainResponse.otherError ("timeout"),
   fun _ => ChainResponse.ok ⟨"C", "r"⟩⟩

/-- Oracle whose second revision call (iteration 1) raises a
non-ValidationError exception. -/
def c10oracleRev : CompletionOracle :=
  ⟨ChainResponse.ok ⟨"A-->B", "r"⟩,
   fun _ => ChainResponse.ok ⟨false, "bad"⟩,
   fun i => if i = 0 then ChainResponse.ok ⟨"C", "r"⟩
     else ChainResponse.otherError ("rate limited")⟩

/-- Witness for C10: draft exception, plus critique and revision exceptions
at iteration 1 of an N = 3 run. -/
theorem C10_other_exceptions_propagate_witness :
    FlowchartAgent.run 1 c10oracleDraft ("p") true ("out.html") =
      (Except.error (AgentError.uncaught ("connection reset")),
        [CallEvent.draftCall]) ∧
    ((FlowchartAgent.run 3 c10oracleCrit ("p") true ("out.html")).1 =
        Except.error (AgentError.uncaught ("timeout")) ∧
      countDraftCalls
        (FlowchartAgent.run 3 c10oracleCrit ("p") true ("out.html")).2 = 1 ∧
      countCritiqueCalls
        (FlowchartAgent.run 3 c10oracleCrit ("p") true ("out.html")).2 = 2 ∧
      countReviseCalls
        (FlowchartAgent.run 3 c10oracleCrit ("p") true ("out.html")).2 = 1) ∧
    ((FlowchartAgent.run 3 c10oracleRev ("p") true ("out.html")).1 =
        Except.error (AgentError.uncaught ("rate limited")) ∧
      countDraftCalls
        (FlowchartAgent.run 3 c10oracleRev ("p") true ("out.html")).2 = 1 ∧
      countCritiqueCalls
        (FlowchartAgent.run 3 c10oracleRev ("p") true ("out.html")).2 = 2 ∧
      countReviseCalls
        (FlowchartAgent.run 3 c10oracleRev ("p") true ("out.html")).2 = 2) :=
  ⟨C10_other_exceptions_propagate.1 1 c10oracleDraft ("p") true ("out.html")
      ("connection reset") rfl,
   C10_other_exceptions_propagate.2.1 3 c10oracleCrit ("p") true ("out.html")
      ⟨"A-->B", "r"⟩ 1 ("timeout") rfl
      (fun j hj => by
        have hj0 : j = 0 := by omega
        subst hj0
        exact ⟨"bad", rfl⟩)
      (fun j hj => by
        have hj0 : j = 0 := by omega
        subst hj0
        exact ⟨⟨"C", "r"⟩, rfl⟩)
      rfl (by omega),
   C10_other_exceptions_propagate.2.2 3 c10oracleRev ("p") true ("out.html")
      ⟨"A-->B", "r"⟩ 1 ("bad") ("rate limited") rfl
      (fun j hj => by
        have hj0 : j = 0 := by omega
        subst hj0
        exact ⟨"bad", rfl⟩)
      (fun j hj => by
        have hj0 : j = 0 := by omega
        subst hj0
        exact ⟨⟨"C", "r"⟩, rfl⟩)
      rfl rfl (by omega)⟩

/-! ## Claim C8: presenter invoked exactly when rendering is requested -/

/-- A successful loop reports the output path in the result exactly when
`save_html` is set, and makes exactly that many presenter calls. -/
theorem runLoop_ok_presenter (o : CompletionOracle) (prompt : String)
    (sh : Bool) (path : String) :
    ∀ fuel d idx r,
      (runLoop o prompt sh path d idx fuel).1 = Except.ok r →
      r.html_path = (if sh then some path else none) ∧
      countPresenterCalls (runLoop o prompt sh path d idx fuel).2 =
        (if sh then 1 else 0) := by
  intro fuel
  induction fuel with
  | zero =>
    intro d idx r h
    simp only [runLoop] at h ⊢
    have hr : (FlowchartAgent.finalize prompt d.mermaid_code sh path).1 = r :=
      by simpa using h
    constructor
    · rw [← hr, finalize_fst]
    · simpa using finalize_countPresenter prompt d.mermaid_code sh path
  | succ fuel ih =>
    intro d idx r h
    cases hc : o.critiqueResponses idx with
    | validationError e =>
      simp only [runLoop, hc] at h
      exact absurd h (by simp)
    | otherError e =>
      simp only [runLoop, hc] at h
      exact absurd h (by simp)
    | ok c =>
      by_cases hs : c.is_satisfactory
      · simp only [runLoop, hc, hs, if_true] at h ⊢
        have hr : (FlowchartAgent.finalize prompt d.mermaid_code sh path).1 = r
          := by simpa using h
        constructor
        · rw [← hr, finalize_fst]
        · have := finalize_countPresenter prompt d.mermaid_code sh path
          simp [countPresenterCalls_cons, CallEvent.isPresenter, this]
      · cases hrv : o.reviseResponses idx with
        | validationError e =>
          simp only [runLoop, hc, hs, hrv] at h
          exact absurd h (by simp)
        | otherError e =>
          simp only [runLoop, hc, hs, hrv] at h
          exact absurd h (by simp)
        | ok d2 =>
          have hrec : (runLoop o prompt sh path (normalizeDraft d2) (idx + 1)
              fuel).1 = Except.ok r := by
            simp only [runLoop, hc, hs, hrv] at h
            simpa using h
          have hih := ih (normalizeDraft d2) (idx + 1) r hrec
          constructor
          · exact hih.1
          · simp only [runLoop, hc, hs, hrv]
            simp [countPresenterCalls_cons, CallEvent.isPresenter, hih.2]

/-- Claim C8: `write_mermaid_html` produces the self-contained document with
the (escaped) content embedded twice — once in the interpreted mermaid div,
once as literal source; a successful rendering run records exactly one
presenter call and carries the artifact reference in the Result, while a
non-rendering run records no presenter call and carries no reference. -/
theorem C8_presenter_iff_render :
    (∀ m, write_mermaid_html m =
      htmlPart1 ++ jinjaEscape m ++ htmlPart2 ++ jinjaEscape m ++ htmlPart3) ∧
    (∀ N o (prompt : String) (path : String) r,
      (FlowchartAgent.run N o prompt true path).1 = Except.ok r →
      r.html_path = some path ∧
      countPresenterCalls (FlowchartAgent.run N o prompt true path).2 = 1) ∧
    (∀ N o (prompt : String) (path : String) r,
      (FlowchartAgent.run N o prompt false path).1 = Except.ok r →
      r.html_path = none ∧
      countPresenterCalls (FlowchartAgent.run N o prompt false path).2 = 0)
    := by
  refine ⟨fun m => rfl, ?_, ?_⟩
  · intro N o prompt path r h
    cases hd : o.draftResponse with
    | validationError e =>
      simp only [FlowchartAgent.run, hd] at h
      exact absurd h (by simp)
    | otherError e =>
      simp only [FlowchartAgent.run, hd] at h
      exact absurd h (by simp)
    | ok d0 =>
      simp only [FlowchartAgent.run, hd] at h
      have hih := runLoop_ok_presenter o prompt true path N
        (normalizeDraft d0) 0 r (by simpa using h)
      refine ⟨by simpa using hih.1, ?_⟩
      simp only [FlowchartAgent.run, hd]
      simp [countPresenterCalls_cons, CallEvent.isPresenter]
      simpa using hih.2
  · intro N o prompt path r h
    cases hd : o.draftResponse with
    | validationError e =>
      simp only [FlowchartAgent.run, hd] at h
      exact absurd h (by simp)
    | otherError e =>
      simp only [FlowchartAgent.run, hd] at h
      exact absurd h (by simp)
    | ok d0 =>
      simp only [FlowchartAgent.run, hd] at h
      have hih := runLoop_ok_presenter o prompt false path N
        (normalizeDraft d0) 0 r (by simpa using h)
      refine ⟨by simpa using hih.1, ?_⟩
      simp only [FlowchartAgent.run, hd]
      simp [countPresenterCalls_cons, CallEvent.isPresenter]
      simpa using hih.2

/-- Oracle for the C8 witness. -/
def c8oracle : CompletionOracle :=
  ⟨ChainResponse.ok ⟨"A-->B", "r"⟩,
   fun _ => ChainResponse.ok ⟨true, "fine"⟩,
   fun _ => ChainResponse.ok ⟨"C", "r"⟩⟩

/-- Witness for C8: template shape at a concrete content, and both rendering
modes at a concrete successful run. -/
theorem C8_presenter_iff_render_witness :
    write_mermaid_html ("A-->B") =
      htmlPart1 ++ jinjaEscape ("A-->B") ++ htmlPart2 ++
        jinjaEscape ("A-->B") ++ htmlPart3 ∧
    ((⟨"p", "flowchart TD\nA-->B", some ("out.html")⟩ :
        FlowchartResult).html_path = some ("out.html") ∧
      countPresenterCalls
        (FlowchartAgent.run 1 c8oracle ("p") true ("out.html")).2 = 1) ∧
    ((⟨"p", "flowchart TD\nA-->B", none⟩ :
        FlowchartResult).html_path = none ∧
      countPresenterCalls
        (FlowchartAgent.run 1 c8oracle ("p") false ("out.html")).2 = 0) :=
  ⟨C8_presenter_iff_render.1 ("A-->B"),
   C8_presenter_iff_render.2.1 1 c8oracle ("p") ("out.html")
     ⟨"p", "flowchart TD\nA-->B", some ("out.html")⟩ rfl,
   C8_presenter_iff_render.2.2 1 c8oracle ("p") ("out.html")
     ⟨"p", "flowchart TD\nA-->B", none⟩ rfl⟩

/-! ## Claim C9: critique history is append-only -/

/-- Claim C9: both nodes of the graph variant only append to
`critique_history` (each step appends exactly one entry), and along any
loop execution the history of an earlier state stays a prefix of the
history of every later state — nothing is removed or mutated. -/
theorem C9_history_append_only :
    (∀ (o : LangGraphOracle) (call : Nat) (s : AgentState),
      ∃ e, (generate_mermaid o call s).critique_history =
        s.critique_history ++ [e]) ∧
    (∀ (o : LangGraphOracle) (call : Nat) (s : AgentState),
      ∃ e, (reflect_on_mermaid o call s).critique_history =
        s.critique_history ++ [e]) ∧
    (∀ (o : LangGraphOracle) (fuel : Nat) (s : AgentState) (call : Nat),
      s.critique_history <+: (langGraphLoop o s call fuel).critique_history)
    := by
  refine ⟨?_, ?_, ?_⟩
  · intro o call s
    exact ⟨("Revision ") ++ toString (s.revision_number + 1) ++
      (" generated."), rfl⟩
  · intro o call s
    cases hr : o.reflectResponses call with
    | ok r =>
      refine ⟨r.critique_or_suggestion, ?_⟩
      simp [reflect_on_mermaid, hr]
    | error e =>
      refine ⟨reflectErrorMessage e, ?_⟩
      simp [reflect_on_mermaid, hr]
  · intro o fuel
    induction fuel with
    | zero =>
      intro s call
      exact List.prefix_refl _
    | succ fuel ih =>
      intro s call
      have h1 : s.critique_history <+:
          AgentState.critique_history
            (reflect_on_mermaid o call (generate_mermaid o call s)) := by
        cases hr : o.reflectResponses call with
        | ok r =>
          refine ⟨[("Revision ") ++ toString (s.revision_number + 1) ++
            (" generated."), r.critique_or_suggestion], ?_⟩
          simp [generate_mermaid, reflect_on_mermaid, hr]
        | error e =>
          refine ⟨[("Revision ") ++ toString (s.revision_number + 1) ++
            (" generated."), reflectErrorMessage e], ?_⟩
          simp [generate_mermaid, reflect_on_mermaid, hr]
      show s.critique_history <+:
        AgentState.critique_history (langGraphLoop o s call (fuel + 1))
      simp only [langGraphLoop]
      by_cases hcont : should_continue
          (reflect_on_mermaid o call (generate_mermaid o call s)) =
          ("generate" : String)
      · rw [if_pos hcont]
        exact h1.trans (ih _ _)
      · rw [if_neg hcont]
        exact h1

/-- Oracle for the C9 witness. -/
def c9oracle : LangGraphOracle :=
  ⟨fun i => ("G") ++ toString i, fun _ => Except.ok ⟨false, "needs work"⟩⟩

/-- Witness for C9 at a concrete state and oracle. -/
theorem C9_history_append_only_witness :
    (∃ e, (generate_mermaid c9oracle 0
        ⟨"p", "", ["old"], 0, none⟩).critique_history = ["old"] ++ [e]) ∧
    (∃ e, (reflect_on_mermaid c9oracle 0
        ⟨"p", "", ["old"], 0, none⟩).critique_history = ["old"] ++ [e]) ∧
    (["old"] : List String) <+:
      AgentState.critique_history
        (langGraphLoop c9oracle ⟨"p", "", ["old"], 0, none⟩ 0 4) :=
  ⟨C9_history_append_only.1 c9oracle 0 ⟨"p", "", ["old"], 0, none⟩,
   C9_history_append_only.2.1 c9oracle 0 ⟨"p", "", ["old"], 0, none⟩,
   C9_history_append_only.2.2 c9oracle 4 ⟨"p", "", ["old"], 0, none⟩ 0⟩

/-! ## Claim C7: chain-based loop vs graph-based loop -/

/-- Draft contents used by the C7 counterexample. -/
def c7drafts : Nat → String := fun i => ("G") ++ toString i

/-- Chain-loop oracle: every critique unsatisfactory, revision i yields
draft i+1. -/
def c7chainOracle : CompletionOracle :=
  ⟨ChainResponse.ok ⟨c7drafts 0, "r"⟩,
   fun _ => ChainResponse.ok ⟨false, "g"⟩,
   fun i => ChainResponse.ok ⟨c7drafts (i + 1), "r"⟩⟩

/-- Graph-loop oracle over the same draft contents and verdicts. -/
def c7graphOracle : LangGraphOracle :=
  ⟨c7drafts, fun _ => Except.ok ⟨false, "g"⟩⟩

/-- Claim C7 is false on the code: on the same response sequence (all
critiques unsatisfactory), the chain-based `run` with its default budget
makes 4 generation calls (1 draft + 3 revisions) and returns the fourth,
uncritiqued draft, while the graph-based variant stops after 3 generation
calls and returns the third draft — different decisions and different final
content. -/
theorem C7_counterexample :
    countDraftCalls (FlowchartAgent.run 3 c7chainOracle ("p") false ("o")).2 +
      countReviseCalls
        (FlowchartAgent.run 3 c7chainOracle ("p") false ("o")).2 = 4 ∧
    (langGraphRun c7graphOracle ("p")).revision_number = 3 ∧
    (FlowchartAgent.run 3 c7chainOracle ("p") false ("o")).1 =
      Except.ok ⟨"p", "flowchart TD\nG3", none⟩ ∧
    (langGraphRun c7graphOracle ("p")).mermaid_code = "G2" ∧
    ("flowchart TD\nG3" : String) ≠ "G2" :=
  ⟨by decide, by decide, rfl, rfl, by decide⟩

/-- Completion oracle built from a shared sequence of draft contents and
critique verdicts, for comparing the two loop variants on the same
responses. -/
def mkChainOracle (drafts : Nat → String) (verdicts : Nat → Bool)
    (guidance : String) : CompletionOracle :=
  ⟨ChainResponse.ok ⟨drafts 0, ""⟩,
   fun i => ChainResponse.ok ⟨verdicts i, guidance⟩,
   fun i => ChainResponse.ok ⟨drafts (i + 1), ""⟩⟩

/-- Graph oracle built from the same shared response sequence. -/
def mkGraphOracle (drafts : Nat → String) (verdicts : Nat → Bool)
    (guidance : String) : LangGraphOracle :=
  ⟨drafts, fun i => Except.ok ⟨verdicts i, guidance⟩⟩

/-- Claim C7 amended: the two variants agree whenever some critique within
the budget is satisfactory — on the same response sequence with the first
satisfactory verdict at position k (k < 3), both make k+1 generation calls
and k+1 critique calls and finalize the k-th draft (the chain variant
additionally normalizing the header and stripping, the graph variant
extracting the fenced block); they diverge when every critique in the
budget is unsatisfactory, where the chain loop performs one extra revision
and returns an uncritiqued draft. -/
theorem C7_amended (drafts : Nat → String) (verdicts : Nat → Bool)
    (guidance prompt path : String) (k : Nat) (hk : k < MAX_REVISIONS)
    (hsat : verdicts k = true) (hunsat : ∀ j, j < k → verdicts j = false) :
    countDraftCalls (FlowchartAgent.run MAX_REVISIONS
        (mkChainOracle drafts verdicts guidance) prompt false path).2 +
      countReviseCalls (FlowchartAgent.run MAX_REVISIONS
        (mkChainOracle drafts verdicts guidance) prompt false path).2 =
      k + 1 ∧
    countCritiqueCalls (FlowchartAgent.run MAX_REVISIONS
        (mkChainOracle drafts verdicts guidance) prompt false path).2 =
      k + 1 ∧
    AgentState.revision_number
      (langGraphRun (mkGraphOracle drafts verdicts guidance) prompt) =
      k + 1 ∧
    (List.length (AgentState.critique_history
      (langGraphRun (mkGraphOracle drafts verdicts guidance) prompt))) =
      2 * (k + 1) ∧
    (FlowchartAgent.run MAX_REVISIONS
        (mkChainOracle drafts verdicts guidance) prompt false path).1 =
      Except.ok ⟨prompt, pyStrip (_ensure_mermaid_header (drafts k)), none⟩ ∧
    AgentState.mermaid_code
      (langGraphRun (mkGraphOracle drafts verdicts guidance) prompt) =
      extractMermaidBlock (drafts k) := by
  have hM : MAX_REVISIONS = 3 := rfl
  rcases k with _ | _ | _ | k
  · refine ⟨?_, ?_, ?_, ?_, ?_, ?_⟩ <;>
      simp [hM, FlowchartAgent.run, runLoop, mkChainOracle, mkGraphOracle,
        langGraphRun, langGraphLoop, generate_mermaid, reflect_on_mermaid,
        should_continue, MAX_REVISIONS, hsat, normalizeDraft, finalize_fst,
        FlowchartAgent.finalize, countDraftCalls_cons, countReviseCalls_cons,
        countCritiqueCalls_cons, CallEvent.isDraft, CallEvent.isRevise,
        CallEvent.isCritique, countDraftCalls, countReviseCalls,
        countCritiqueCalls]
  · have h0 : verdicts 0 = false := hunsat 0 (by omega)
    refine ⟨?_, ?_, ?_, ?_, ?_, ?_⟩ <;>
      simp [hM, FlowchartAgent.run, runLoop, mkChainOracle, mkGraphOracle,
        langGraphRun, langGraphLoop, generate_mermaid, reflect_on_mermaid,
        should_continue, MAX_REVISIONS, hsat, h0, normalizeDraft,
        finalize_fst, FlowchartAgent.finalize, countDraftCalls_cons,
        countReviseCalls_cons, countCritiqueCalls_cons, CallEvent.isDraft,
        CallEvent.isRevise, CallEvent.isCritique, countDraftCalls,
        countReviseCalls, countCritiqueCalls]
  · have h0 : verdicts 0 = false := hunsat 0 (by omega)
    have h1 : verdicts 1 = false := hunsat 1 (by omega)
    refine ⟨?_, ?_, ?_, ?_, ?_, ?_⟩ <;>
      simp [hM, FlowchartAgent.run, runLoop, mkChainOracle, mkGraphOracle,
        langGraphRun, langGraphLoop, generate_mermaid, reflect_on_mermaid,
        should_continue, MAX_REVISIONS, hsat, h0, h1, normalizeDraft,
        finalize_fst, FlowchartAgent.finalize, countDraftCalls_cons,
        countReviseCalls_cons, countCritiqueCalls_cons, CallEvent.isDraft,
        CallEvent.isRevise, CallEvent.isCritique, countDraftCalls,
        countReviseCalls, countCritiqueCalls]
  · rw [hM] at hk
    omega

/-- Draft contents used by the C7 witness. -/
def c7wDrafts : Nat → String := fun i => ("D") ++ toString i

/-- Verdicts used by the C7 witness: satisfactory at position 1. -/
def c7wVerdicts : Nat → Bool := fun i => i == 1

/-- Witness for C7_amended at a concrete response sequence with the first
satisfactory critique at position 1. -/
theorem C7_amended_witness :
    countDraftCalls (FlowchartAgent.run MAX_REVISIONS
        (mkChainOracle c7wDrafts c7wVerdicts ("g")) ("p") false ("o")).2 +
      countReviseCalls (FlowchartAgent.run MAX_REVISIONS
        (mkChainOracle c7wDrafts c7wVerdicts ("g")) ("p") false ("o")).2 =
      2 ∧
    countCritiqueCalls (FlowchartAgent.run MAX_REVISIONS
        (mkChainOracle c7wDrafts c7wVerdicts ("g")) ("p") false ("o")).2 =
      2 ∧
    AgentState.revision_number
      (langGraphRun (mkGraphOracle c7wDrafts c7wVerdicts ("g")) ("p")) = 2 ∧
    (List.length (AgentState.critique_history
      (langGraphRun (mkGraphOracle c7wDrafts c7wVerdicts ("g")) ("p")))) =
      4 ∧
    (FlowchartAgent.run MAX_REVISIONS
        (mkChainOracle c7wDrafts c7wVerdicts ("g")) ("p") false ("o")).1 =
      Except.ok ⟨"p", pyStrip (_ensure_mermaid_header (c7wDrafts 1)), none⟩ ∧
    AgentState.mermaid_code
      (langGraphRun (mkGraphOracle c7wDrafts c7wVerdicts ("g")) ("p")) =
      extractMermaidBlock (c7wDrafts 1) :=
  C7_amended c7wDrafts c7wVerdicts ("g") ("p") ("o") 1 (by decide) rfl
    (fun j hj => by
      have hj0 : j = 0 := by omega
      subst hj0
      rfl)
